import Mathlib

/-!
Verification development for the NodeRunner simulation core (a Lode Runner
variant).  The Rust sources under `src/domain` and `src/sim` are shallowly
embedded as executable Lean definitions: tile grids are `List (List Tile)`,
machine integers become `Nat`/`Int`, in-place mutation becomes explicit state
passing, and every loop is translated as a fold or a fuel-bounded recursion
mirroring the source's own bound.
-/

set_option maxRecDepth 4000
set_option linter.dupNamespace false

namespace NodeRunner

/- ════════════════════════════════════════════════════════════════
   src/domain/tile.rs
   ════════════════════════════════════════════════════════════════ -/

inductive Tile where
  | Empty
  | Brick
  | Concrete
  | Ladder
  | Rope
  | Gold
  | HiddenLadder
  | TrapBrick
deriving DecidableEq, Repr, Inhabited

namespace Tile

/-- `Tile::is_solid`: can an entity stand on top of this tile? -/
def is_solid : Tile → Bool
  | Brick | Concrete | TrapBrick => true
  | _ => false

/-- `Tile::is_diggable`: can this tile be dug? -/
def is_diggable : Tile → Bool
  | Brick => true
  | _ => false

/-- `Tile::is_climbable` -/
def is_climbable : Tile → Bool
  | Ladder | HiddenLadder => true
  | _ => false

/-- `Tile::is_hangable` -/
def is_hangable : Tile → Bool
  | Rope => true
  | _ => false

/-- `Tile::is_passable` -/
def is_passable (t : Tile) : Bool := ! t.is_solid

end Tile

/- ════════════════════════════════════════════════════════════════
   src/domain/entity.rs
   ════════════════════════════════════════════════════════════════ -/

inductive Facing where
  | Left
  | Right
deriving DecidableEq, Repr, Inhabited

inductive ActorState where
  | OnGround
  | Falling
  | OnLadder
  | OnRope
  | InHole
  | Dead
deriving DecidableEq, Repr, Inhabited

inductive MoveDir where
  | Left
  | Right
  | Up
  | Down
deriving DecidableEq, Repr, Inhabited

structure FrameInput where
  movement : Option MoveDir
  dig : Option Facing
deriving DecidableEq, Repr, Inhabited

structure Player where
  x : Nat
  y : Nat
  facing : Facing
  state : ActorState
  alive : Bool
  move_cooldown : Nat
deriving DecidableEq, Repr, Inhabited

structure Guard where
  id : Nat
  x : Nat
  y : Nat
  facing : Facing
  state : ActorState
  carry_gold : Bool
  carry_gold_timer : Nat
  stuck_timer : Nat
  move_cooldown : Nat
  spawn_x : Nat
  spawn_y : Nat
  respawn_timer : Nat
  separation_timer : Nat
deriving DecidableEq, Repr, Inhabited

structure Hole where
  x : Nat
  y : Nat
  open_remaining : Nat
  close_remaining : Nat
deriving DecidableEq, Repr, Inhabited

namespace Hole

/-- `Hole::is_active`: is the hole still active (passable)? -/
def is_active (h : Hole) : Bool :=
  h.open_remaining > 0 || h.close_remaining > 0

/-- `Hole::is_closing` -/
def is_closing (h : Hole) : Bool :=
  h.open_remaining == 0 && h.close_remaining > 0

/-- `Hole::tick`, state part: advance one tick. -/
def tickHole (h : Hole) : Hole :=
  if h.open_remaining > 0 then { h with open_remaining := h.open_remaining - 1 }
  else if h.close_remaining > 0 then { h with close_remaining := h.close_remaining - 1 }
  else h

/-- `Hole::tick`, result part: true when the hole just expired. -/
def tickDone (h : Hole) : Bool := ! (tickHole h).is_active

end Hole

structure DigInProgress where
  x : Nat
  y : Nat
  ticks_remaining : Nat
  total_ticks : Nat
deriving DecidableEq, Repr, Inhabited

/- ════════════════════════════════════════════════════════════════
   2D list-grid helpers (Vec<Vec<_>> indexing in the Rust source)
   ════════════════════════════════════════════════════════════════ -/

/-- Lookup `g[y][x]` in a boolean grid, false when out of the physical grid. -/
def get2 (g : List (List Bool)) (x y : Nat) : Bool :=
  (g.getD y []).getD x false

/-- Set `g[y][x] := b` (no-op outside the physical grid, like `List.set`). -/
def set2 (g : List (List Bool)) (x y : Nat) (b : Bool) : List (List Bool) :=
  g.set y ((g.getD y []).set x b)

/-- Lookup `tiles[y][x]`; `Tile::Empty` used as the out-of-range default
(the source only indexes inside the checked bounds). -/
def getTile (tiles : List (List Tile)) (x y : Nat) : Tile :=
  (tiles.getD y []).getD x Tile.Empty

/-- Set `tiles[y][x] := t`. -/
def setTileGrid (tiles : List (List Tile)) (x y : Nat) (t : Tile) : List (List Tile) :=
  tiles.set y ((tiles.getD y []).set x t)

/-- A `height × width` grid filled with one boolean. -/
def mkGrid (width height : Nat) (b : Bool) : List (List Bool) :=
  List.replicate height (List.replicate width b)

/- ════════════════════════════════════════════════════════════════
   src/domain/physics.rs — terrain and occupancy queries
   ════════════════════════════════════════════════════════════════ -/

structure TerrainCell where
  passable : Bool
  climbable : Bool
  hangable : Bool
  hole : Bool
deriving DecidableEq, Repr, Inhabited

namespace physics

/-- `physics::terrain_at`: terrain at (x, y), holes override the tile. -/
def terrain_at (tiles : List (List Tile)) (width height : Nat)
    (hole_grid : List (List Bool)) (x y : Nat) : TerrainCell :=
  if x ≥ width ∨ y ≥ height then
    ⟨false, false, false, false⟩
  else if y < hole_grid.length ∧ x < (hole_grid.getD y []).length ∧ get2 hole_grid x y then
    ⟨true, false, false, true⟩
  else
    let tile := getTile tiles x y
    ⟨tile.is_passable, tile.is_climbable, tile.is_hangable, false⟩

/-- `physics::terrain_support`: does terrain alone provide support at (x, y)? -/
def terrain_support (tiles : List (List Tile)) (width height : Nat)
    (hole_grid : List (List Bool)) (x y : Nat) : Bool :=
  if y + 1 ≥ height then true
  else
    let here := terrain_at tiles width height hole_grid x y
    if here.climbable || here.hangable then true
    else
      let below := terrain_at tiles width height hole_grid x (y + 1)
      if !below.passable || below.climbable then true
      else false

/-- `physics::has_trapped_guard` -/
def has_trapped_guard (guards : List Guard) (x y : Nat) : Bool :=
  guards.any fun g => g.x == x && g.y == y && g.state == ActorState.InHole

/-- `physics::has_trapped_guard_except` -/
def has_trapped_guard_except (guards : List Guard) (x y skip : Nat) : Bool :=
  (List.range guards.length).any fun j =>
    j != skip && (guards.getD j default).x == x && (guards.getD j default).y == y
      && (guards.getD j default).state == ActorState.InHole

/-- `physics::has_standing_guard`: non-dead, non-falling guard at (x, y). -/
def has_standing_guard (guards : List Guard) (x y : Nat) : Bool :=
  guards.any fun g =>
    g.x == x && g.y == y
    && g.state != ActorState.Dead
    && g.state != ActorState.Falling

/-- `physics::has_active_guard_except` -/
def has_active_guard_except (guards : List Guard) (x y skip : Nat) : Bool :=
  (List.range guards.length).any fun j =>
    j != skip && (guards.getD j default).x == x && (guards.getD j default).y == y
    && (guards.getD j default).state != ActorState.Dead
    && (guards.getD j default).state != ActorState.InHole

/-- `physics::has_support`: terrain support OR trapped guard below. -/
def has_support (tiles : List (List Tile)) (width height : Nat)
    (hole_grid : List (List Bool)) (guards : List Guard) (x y : Nat) : Bool :=
  if terrain_support tiles width height hole_grid x y then true
  else if y + 1 < height && has_trapped_guard guards x (y + 1) then true
  else false

/-- `physics::has_support_for_player`: terrain + any standing guard below. -/
def has_support_for_player (tiles : List (List Tile)) (width height : Nat)
    (hole_grid : List (List Bool)) (guards : List Guard) (x y : Nat) : Bool :=
  if terrain_support tiles width height hole_grid x y then true
  else if y + 1 < height && has_standing_guard guards x (y + 1) then true
  else false

/-- `physics::has_support_for_guard`: excludes self from the trapped check. -/
def has_support_for_guard (tiles : List (List Tile)) (width height : Nat)
    (hole_grid : List (List Bool)) (guards : List Guard) (x y guard_idx : Nat) : Bool :=
  if terrain_support tiles width height hole_grid x y then true
  else if y + 1 < height && has_trapped_guard_except guards x (y + 1) guard_idx then true
  else false

/-- `physics::resolve_state`: terrain + occupancy state resolution. -/
def resolve_state (tiles : List (List Tile)) (width height : Nat)
    (hole_grid : List (List Bool)) (guards : List Guard) (x y : Nat)
    (current : ActorState) : ActorState :=
  if current = ActorState.Dead ∨ current = ActorState.InHole then current
  else
    let here := terrain_at tiles width height hole_grid x y
    if here.climbable then ActorState.OnLadder
    else if here.hangable then ActorState.OnRope
    else if has_support tiles width height hole_grid guards x y then ActorState.OnGround
    else ActorState.Falling

/-- `physics::build_hole_grid`: boolean grid from the hole list. -/
def build_hole_grid (holes : List Hole) (width height : Nat) : List (List Bool) :=
  holes.foldl
    (fun grid h =>
      if h.x < width ∧ h.y < height ∧ h.is_active then set2 grid h.x h.y true
      else grid)
    (mkGrid width height false)

end physics

/- ════════════════════════════════════════════════════════════════
   src/domain/rules.rs — tile-only movement and dig rules
   ════════════════════════════════════════════════════════════════ -/

structure MapView where
  tiles : List (List Tile)
  width : Nat
  height : Nat
deriving Repr, Inhabited

namespace MapView

/-- `MapView::tile_at`: out of bounds reads as Concrete (a wall). -/
def tile_at (m : MapView) (x y : Nat) : Tile :=
  if x ≥ m.width ∨ y ≥ m.height then Tile.Concrete
  else getTile m.tiles x y

/-- `MapView::is_passable` -/
def is_passable (m : MapView) (x y : Nat) : Bool :=
  (m.tile_at x y).is_passable

/-- `MapView::has_support`: terrain-only support check. -/
def has_support (m : MapView) (x y : Nat) : Bool :=
  if y + 1 ≥ m.height then true
  else
    let here := m.tile_at x y
    if here.is_climbable || here.is_hangable then true
    else
      let below := m.tile_at x (y + 1)
      if below.is_solid || below.is_climbable then true
      else false

end MapView

namespace rules

/-- `rules::resolve_state`: tile-only state resolution. -/
def resolve_state (m : MapView) (x y : Nat) (current : ActorState) : ActorState :=
  if current = ActorState.Dead ∨ current = ActorState.InHole then current
  else
    let here := m.tile_at x y
    if here.is_climbable then ActorState.OnLadder
    else if here.is_hangable then ActorState.OnRope
    else if m.has_support x y then ActorState.OnGround
    else ActorState.Falling

/-- `rules::is_immobile` -/
def is_immobile (state : ActorState) : Bool :=
  match state with
  | ActorState.Falling | ActorState.Dead | ActorState.InHole => true
  | _ => false

/-- `rules::can_move_left` -/
def can_move_left (m : MapView) (x y : Nat) (state : ActorState) : Bool :=
  if x == 0 then false
  else if is_immobile state then false
  else m.is_passable (x - 1) y

/-- `rules::can_move_right` -/
def can_move_right (m : MapView) (x y : Nat) (state : ActorState) : Bool :=
  if x + 1 ≥ m.width then false
  else if is_immobile state then false
  else m.is_passable (x + 1) y

/-- `rules::can_move_up` -/
def can_move_up (m : MapView) (x y : Nat) (state : ActorState) : Bool :=
  if y == 0 then false
  else if is_immobile state then false
  else if ! (m.tile_at x y).is_climbable then false
  else m.is_passable x (y - 1)

/-- `rules::can_move_down` -/
def can_move_down (m : MapView) (x y : Nat) (state : ActorState) : Bool :=
  if y + 1 ≥ m.height then false
  else if state = ActorState.Dead ∨ state = ActorState.InHole then false
  else
    let here := m.tile_at x y
    let below := m.tile_at x (y + 1)
    if (here.is_climbable || here.is_hangable) && below.is_passable then true
    else if below.is_climbable then true
    else false

/-- `rules::can_dig`: returns the dig target (x, y) when digging is legal. -/
def can_dig (m : MapView) (x y : Nat) (state : ActorState) (dir : Facing) :
    Option (Nat × Nat) :=
  if is_immobile state then none
  else if ! m.has_support x y ∧ state ≠ ActorState.OnLadder ∧ state ≠ ActorState.OnRope then
    none
  else
    match dir with
    | Facing.Left =>
      if x == 0 then none else can_dig_side m y (x - 1)
    | Facing.Right =>
      if x + 1 ≥ m.width then none else can_dig_side m y (x + 1)
where
  /-- body of `rules::can_dig` after the side cell is computed -/
  can_dig_side (m : MapView) (y side_x : Nat) : Option (Nat × Nat) :=
    let dig_y := y + 1
    if dig_y ≥ m.height then none
    else if ! m.is_passable side_x y then none
    else if (m.tile_at side_x y).is_climbable then none
    else if (m.tile_at side_x dig_y).is_diggable then some (side_x, dig_y)
    else none

end rules

/- ════════════════════════════════════════════════════════════════
   src/domain/ai.rs — guard pathfinding
   ════════════════════════════════════════════════════════════════ -/

namespace ai

def BFS_MAX_DEPTH : Nat := 300

def DIRS : List (Int × Int) := [(-1, 0), (1, 0), (0, -1), (0, 1)]

def SEPARATION_TICKS : Nat := 10

/-- `ai::Ctx`: context for physics queries. -/
structure Ctx where
  tiles : List (List Tile)
  width : Nat
  height : Nat
  hole_grid : List (List Bool)
  guards : List Guard

/-- `Ctx::terrain` -/
def Ctx.terrain (c : Ctx) (x y : Nat) : TerrainCell :=
  physics.terrain_at c.tiles c.width c.height c.hole_grid x y

/-- `Ctx::support` -/
def Ctx.support (c : Ctx) (x y : Nat) : Bool :=
  physics.has_support c.tiles c.width c.height c.hole_grid c.guards x y

/-- `Ctx::can_enter` -/
def Ctx.can_enter (c : Ctx) (x y : Nat) : Bool :=
  (c.terrain x y).passable

/-- `ai::try_move`: one-step legality for BFS edges. -/
def try_move (c : Ctx) (x y : Nat) (dx dy : Int) : Option (Nat × Nat) :=
  let nxi : Int := (x : Int) + dx
  let nyi : Int := (y : Int) + dy
  if nxi < 0 ∨ nyi < 0 then none
  else
    let nx := nxi.toNat
    let ny := nyi.toNat
    if nx ≥ c.width ∨ ny ≥ c.height then none
    else if ! c.can_enter nx ny then none
    else
      let here := c.terrain x y
      if dy < 0 ∧ ! here.climbable then none
      else if dy > 0 ∧ y + 1 < c.height
          ∧ ! here.climbable ∧ ! here.hangable
          ∧ ! (c.terrain x (y + 1)).climbable
          ∧ c.support x y then none
      else if dx ≠ 0 ∧ ! c.support x y then none
      else some (nx, ny)

/-- The initial four-neighbor pass of `ai::find_direction` (the first
for-loop): returns an immediate direction when a neighbor is the player,
else the seeded visited grid and queue. -/
def init_pass (c : Ctx) (gx gy px py : Nat) :
    List (Int × Int) → List (List Bool) → List (Nat × Nat × Int × Int) →
    Option (Int × Int) × List (List Bool) × List (Nat × Nat × Int × Int)
  | [], visited, queue => (none, visited, queue)
  | (dx, dy) :: rest, visited, queue =>
    match try_move c gx gy dx dy with
    | none => init_pass c gx gy px py rest visited queue
    | some (nx, ny) =>
      if nx = px ∧ ny = py then (some (dx, dy), visited, queue)
      else if ! get2 visited nx ny then
        init_pass c gx gy px py rest (set2 visited nx ny true)
          (queue ++ [(nx, ny, dx, dy)])
      else init_pass c gx gy px py rest visited queue

/-- The four-direction expansion inside the BFS while-loop of
`ai::find_direction` (supported node case). -/
def expand_dirs (c : Ctx) (px py cx cy : Nat) (fdx fdy : Int) :
    List (Int × Int) → List (List Bool) → List (Nat × Nat × Int × Int) →
    Option (Int × Int) × List (List Bool) × List (Nat × Nat × Int × Int)
  | [], visited, queue => (none, visited, queue)
  | (dx, dy) :: rest, visited, queue =>
    match try_move c cx cy dx dy with
    | none => expand_dirs c px py cx cy fdx fdy rest visited queue
    | some (nx, ny) =>
      if ! get2 visited nx ny then
        if nx = px ∧ ny = py then (some (fdx, fdy), visited, queue)
        else expand_dirs c px py cx cy fdx fdy rest (set2 visited nx ny true)
          (queue ++ [(nx, ny, fdx, fdy)])
      else expand_dirs c px py cx cy fdx fdy rest visited queue

/-- The BFS while-loop of `ai::find_direction`.  The source pops the queue
and breaks once its step counter exceeds `BFS_MAX_DEPTH` (300): a pop is
processed iff at most 300 pops were processed before it, which is exactly
a fuel argument initialised to 300.  The second component counts the
processed pops. -/
def bfs_loop (c : Ctx) (px py : Nat) :
    Nat → List (Nat × Nat × Int × Int) → List (List Bool) →
    Option (Int × Int) × Nat
  | _, [], _ => (none, 0)
  | 0, _ :: _, _ => (none, 0)
  | budget + 1, (cx, cy, fdx, fdy) :: rest, visited =>
    if ! c.support cx cy then
      if cy + 1 < c.height ∧ c.can_enter cx (cy + 1) ∧ ! get2 visited cx (cy + 1) then
        if cx = px ∧ cy + 1 = py then (some (fdx, fdy), 1)
        else
          let r := bfs_loop c px py budget (rest ++ [(cx, cy + 1, fdx, fdy)])
            (set2 visited cx (cy + 1) true)
          (r.1, r.2 + 1)
      else
        let r := bfs_loop c px py budget rest visited
        (r.1, r.2 + 1)
    else
      match expand_dirs c px py cx cy fdx fdy DIRS visited rest with
      | (some d, _, _) => (some d, 1)
      | (none, visited2, queue2) =>
        let r := bfs_loop c px py budget queue2 visited2
        (r.1, r.2 + 1)

/-- The ladder half of `ai::fallback_chase` (the code after `let here`). -/
def fallback_ladder (c : Ctx) (gx gy py : Nat) : Int × Int :=
  let here := c.terrain gx gy
  if here.climbable then
    let dy : Int := if py > gy then 1 else if py < gy then -1 else 0
    if dy ≠ 0 then
      let ny := ((gy : Int) + dy).toNat
      if ny < c.height ∧ c.can_enter gx ny then (0, dy) else (0, 0)
    else (0, 0)
  else (0, 0)

/-- `ai::fallback_chase`: greedy one-step heuristic when BFS fails. -/
def fallback_chase (c : Ctx) (gx gy px py : Nat) : Int × Int :=
  let dx : Int := if px > gx then 1 else if px < gx then -1 else 0
  let horiz : Option (Int × Int) :=
    if dx ≠ 0 then
      let nx := ((gx : Int) + dx).toNat
      if nx < c.width ∧ c.can_enter nx gy then some (dx, 0) else none
    else none
  match horiz with
  | some d => d
  | none => fallback_ladder c gx gy py

/-- `ai::find_direction`: chase-mode BFS toward the player. -/
def find_direction (tiles : List (List Tile)) (width height : Nat)
    (hole_grid : List (List Bool)) (guards : List Guard)
    (gx gy : Nat) (gstate : ActorState) (px py : Nat) : Int × Int :=
  if gstate = ActorState.InHole ∨ gstate = ActorState.Dead then (0, 0)
  else if gx = px ∧ gy = py then (0, 0)
  else
    let c : Ctx := ⟨tiles, width, height, hole_grid, guards⟩
    let visited0 := set2 (mkGrid width height false) gx gy true
    match init_pass c gx gy px py DIRS visited0 [] with
    | (some d, _, _) => d
    | (none, visited, queue) =>
      match (bfs_loop c px py BFS_MAX_DEPTH queue visited).1 with
      | some d => d
      | none => fallback_chase c gx gy px py

/-- `ai::manhattan` -/
def manhattan (x1 y1 x2 y2 : Nat) : Int :=
  |(x1 : Int) - (x2 : Int)| + |(y1 : Int) - (y2 : Int)|

/-- `ai::find_separation_direction`: move away from the nearest guard. -/
def find_separation_direction (tiles : List (List Tile)) (width height : Nat)
    (hole_grid : List (List Bool)) (guards : List Guard) (guard_idx : Nat)
    (gx gy : Nat) (gstate : ActorState) (px py : Nat) : Int × Int :=
  if gstate = ActorState.InHole ∨ gstate = ActorState.Dead then (0, 0)
  else
    let c : Ctx := ⟨tiles, width, height, hole_grid, guards⟩
    let nearest := (guards.enum).foldl
      (fun acc jg =>
        if jg.1 = guard_idx then acc
        else if jg.2.state = ActorState.Dead ∨ jg.2.state = ActorState.InHole then acc
        else
          let dist := manhattan jg.2.x jg.2.y gx gy
          if dist < acc.1 then (dist, jg.2.x, jg.2.y) else acc)
      ((2147483647 : Int), gx, gy)
    if nearest.1 > 3 then
      find_direction tiles width height hole_grid guards gx gy gstate px py
    else
      let current_guard_dist := manhattan gx gy nearest.2.1 nearest.2.2
      let best := DIRS.foldl
        (fun best dd =>
          match try_move c gx gy dd.1 dd.2 with
          | none => best
          | some nxy =>
            let guard_dist := manhattan nxy.1 nxy.2 nearest.2.1 nearest.2.2
            let player_dist := manhattan nxy.1 nxy.2 px py
            let current_player_dist := manhattan gx gy px py
            let score := (guard_dist - current_guard_dist) * 10
              + (current_player_dist - player_dist)
            if score > best.2 then (dd, score) else best)
        ((((0 : Int), (0 : Int)), (-2147483648 : Int)))
      if best.1 = ((0 : Int), (0 : Int)) then
        find_direction tiles width height hole_grid guards gx gy gstate px py
      else best.1

end ai

/- ════════════════════════════════════════════════════════════════
   src/config.rs + src/sim/world.rs + src/sim/event.rs
   ════════════════════════════════════════════════════════════════ -/

structure SpeedConfig where
  tick_rate_ms : Nat
  player_move_rate : Nat
  guard_move_rate : Nat
  dig_duration : Nat
  hole_open_ticks : Nat
  hole_close_ticks : Nat
  trap_escape_ticks : Nat
  guard_respawn_ticks : Nat
  gold_carry_ticks : Nat
deriving DecidableEq, Repr, Inhabited

inductive Phase where
  | Title
  | LevelSelect
  | PackSelect
  | LevelIntro
  | LevelReady
  | Playing
  | LevelOutro
  | LevelComplete
  | Dying
  | GameOver
  | GameComplete
deriving DecidableEq, Repr, Inhabited

inductive GameEvent where
  | GoldPicked (x y : Nat)
  | HoleCreated (x y : Nat)
  | HoleFilled (x y : Nat)
  | GuardTrapped (id x y : Nat)
  | GuardKilled (id x y : Nat)
  | GuardRespawned (id : Nat)
  | GuardDroppedGold (x y : Nat)
  | PlayerKilled
  | PlayerFallStart
  | ExitEnabled
  | StageCleared
  | AllGoldCollected
  | TrapCollapsed (x y : Nat)
deriving DecidableEq, Repr, Inhabited

/-- The simulation-relevant fields of `WorldState` (UI-only fields such as
the camera, the level-select cursors and the pack list are omitted: `step`
never reads or writes them). -/
structure WorldState where
  base_tiles : List (List Tile)
  tiles : List (List Tile)
  width : Nat
  height : Nat
  player : Player
  guards : List Guard
  holes : List Hole
  digs : List DigInProgress
  hole_grid : List (List Bool)
  gold_remaining : Nat
  gold_total : Nat
  exit_enabled : Bool
  speed : SpeedConfig
  phase : Phase
  score : Nat
  lives : Nat
  current_level : Nat
  tick : Nat
  message : String
  message_timer : Nat
  player_spawn : Nat × Nat
  exit_columns : List Nat
  hidden_ladder_positions : List (Nat × Nat)
  anim_tick : Nat
  anim_player_y : Int
  paused : Bool
deriving DecidableEq, Repr, Inhabited

namespace WorldState

/-- `WorldState::terrain_at`: effective tile, out of bounds reads Concrete. -/
def terrain_at (w : WorldState) (x y : Nat) : Tile :=
  if x < w.width ∧ y < w.height then getTile w.tiles x y
  else Tile.Concrete

/-- `WorldState::set_tile` -/
def set_tile (w : WorldState) (x y : Nat) (t : Tile) : WorldState :=
  if x < w.width ∧ y < w.height then { w with tiles := setTileGrid w.tiles x y t }
  else w

/-- `WorldState::clear_tile`: revert one cell to the base layer. -/
def clear_tile (w : WorldState) (x y : Nat) : WorldState :=
  if x < w.width ∧ y < w.height then
    { w with tiles := setTileGrid w.tiles x y (getTile w.base_tiles x y) }
  else w

/-- `WorldState::rebuild_hole_grid` -/
def rebuild_hole_grid (w : WorldState) : WorldState :=
  { w with hole_grid := physics.build_hole_grid w.holes w.width w.height }

/-- `WorldState::set_message` -/
def set_message (w : WorldState) (msg : String) (duration : Nat) : WorldState :=
  { w with message := msg, message_timer := duration }

/-- The `MapView` the step code builds from a world. -/
def mapView (w : WorldState) : MapView := ⟨w.tiles, w.width, w.height⟩

end WorldState

/- ════════════════════════════════════════════════════════════════
   src/sim/step.rs — the per-tick pipeline
   ════════════════════════════════════════════════════════════════ -/

namespace step

/-- `step::player_in_closing_hole` -/
def player_in_closing_hole (w : WorldState) : Bool :=
  if ! w.player.alive then false
  else w.holes.any fun h =>
    h.x == w.player.x && h.y == w.player.y && h.is_closing

/-- `step::can_drop_gold_at`: gold rests only on Empty above solid/bottom. -/
def can_drop_gold_at (w : WorldState) (x y : Nat) : Bool :=
  if x ≥ w.width ∨ y ≥ w.height then false
  else if w.terrain_at x y ≠ Tile.Empty then false
  else if y + 1 ≥ w.height then true
  else (w.terrain_at x (y + 1)).is_solid

/-- `step::resolve_dig`: start a dig when requested and legal. -/
def resolve_dig (w : WorldState) (dig_dir : Option Facing)
    (events : List GameEvent) : WorldState × List GameEvent :=
  match dig_dir with
  | none => (w, events)
  | some dir =>
    match rules.can_dig w.mapView w.player.x w.player.y w.player.state dir with
    | none => (w, events)
    | some dxy =>
      let dx := dxy.1
      let dy := dxy.2
      if w.digs.any (fun d => d.x == dx && d.y == dy) then (w, events)
      else if w.holes.any (fun h => h.x == dx && h.y == dy) then (w, events)
      else if dy > 0 ∧ w.terrain_at dx (dy - 1) = Tile.Gold then (w, events)
      else
        ({ w with digs := w.digs ++
            [⟨dx, dy, w.speed.dig_duration, w.speed.dig_duration⟩] },
         events ++ [GameEvent.HoleCreated dx dy])

/-- `step::resolve_dig_progress`: tick digs; completed digs (removed in
reverse index order in the source, modelled as a fold over the reversed
completed list — the loop body reads no other dig) open tiles and spawn
holes. -/
def resolve_dig_progress (w : WorldState) (events : List GameEvent) :
    WorldState × List GameEvent :=
  let decd := w.digs.map fun d =>
    if d.ticks_remaining > 0 then { d with ticks_remaining := d.ticks_remaining - 1 }
    else d
  let completed := decd.filter fun d => d.ticks_remaining == 0
  let remaining := decd.filter fun d => d.ticks_remaining != 0
  let w1 := completed.reverse.foldl
    (fun w d =>
      let w := w.set_tile d.x d.y Tile.Empty
      { w with holes := w.holes ++
          [⟨d.x, d.y, w.speed.hole_open_ticks, w.speed.hole_close_ticks⟩] })
    { w with digs := remaining }
  (w1, events)

/-- `step::resolve_player_movement` -/
def resolve_player_movement (w : WorldState) (movement : Option MoveDir) :
    WorldState :=
  if ! w.player.alive then w
  else if w.player.state = ActorState.Falling then w
  else if player_in_closing_hole w then w
  else if w.player.move_cooldown > 0 then
    { w with player := { w.player with move_cooldown := w.player.move_cooldown - 1 } }
  else
    match movement with
    | none => w
    | some md =>
      let dxdy : Int × Int :=
        match md with
        | MoveDir.Left => (-1, 0)
        | MoveDir.Right => (1, 0)
        | MoveDir.Up => (0, -1)
        | MoveDir.Down => (0, 1)
      let p := w.player
      let can_move :=
        match md with
        | MoveDir.Left => rules.can_move_left w.mapView p.x p.y p.state
        | MoveDir.Right => rules.can_move_right w.mapView p.x p.y p.state
        | MoveDir.Up => rules.can_move_up w.mapView p.x p.y p.state
        | MoveDir.Down => rules.can_move_down w.mapView p.x p.y p.state
      if can_move then
        let nx := ((p.x : Int) + dxdy.1).toNat
        let ny := ((p.y : Int) + dxdy.2).toNat
        let fc := if dxdy.1 < 0 then Facing.Left
          else if dxdy.1 > 0 then Facing.Right else p.facing
        let st := rules.resolve_state w.mapView nx ny p.state
        let st :=
          if st = ActorState.Falling ∧
              physics.has_support_for_player w.tiles w.width w.height
                w.hole_grid w.guards nx ny
          then ActorState.OnGround else st
        { w with player := { p with
            x := nx, y := ny, facing := fc,
            move_cooldown := w.speed.player_move_rate, state := st } }
      else w

/-- `step::MoveIntent` -/
structure MoveIntent where
  guard_idx : Nat
  target_x : Nat
  target_y : Nat
  dx : Int
deriving DecidableEq, Repr, Inhabited

/-- Phase 1 of `step::resolve_guard_movement`: collect intents, decrement
cooldowns.  Cooldown mutations are visible to later guards' AI queries, as
in the source. -/
def collect_intents (w : WorldState) (px py : Nat) :
    List Guard × List MoveIntent :=
  (List.range w.guards.length).foldl
    (fun acc i =>
      let guards := acc.1
      let intents := acc.2
      let g := guards.getD i default
      if g.state = ActorState.Dead ∨ g.state = ActorState.InHole
          ∨ g.state = ActorState.Falling then acc
      else if g.move_cooldown > 0 then
        (guards.set i { g with move_cooldown := g.move_cooldown - 1 }, intents)
      else
        let d :=
          if g.separation_timer > 0 then
            ai.find_separation_direction w.tiles w.width w.height w.hole_grid
              guards i g.x g.y g.state px py
          else
            ai.find_direction w.tiles w.width w.height w.hole_grid
              guards g.x g.y g.state px py
        if d.1 = 0 ∧ d.2 = 0 then acc
        else
          let nxi := (g.x : Int) + d.1
          let nyi := (g.y : Int) + d.2
          if nxi < 0 ∨ nyi < 0 then acc
          else
            let nx := nxi.toNat
            let ny := nyi.toNat
            if nx ≥ w.width ∨ ny ≥ w.height then acc
            else if ! (physics.terrain_at w.tiles w.width w.height
                w.hole_grid nx ny).passable then acc
            else (guards, intents ++ [⟨i, nx, ny, d.1⟩]))
    (w.guards, [])

/-- Phase 2 of `step::resolve_guard_movement`: conflict resolution. -/
def approve_intents (guards : List Guard) (intents : List MoveIntent) :
    List MoveIntent :=
  (intents.foldl
    (fun acc intent =>
      if physics.has_active_guard_except guards intent.target_x intent.target_y
          intent.guard_idx then acc
      else if acc.1.any (fun o => o.1 == intent.target_x && o.2 == intent.target_y)
        then acc
      else (acc.1 ++ [(intent.target_x, intent.target_y)], acc.2 ++ [intent]))
    (([] : List (Nat × Nat)), ([] : List MoveIntent))).2

/-- Phase 3 of `step::resolve_guard_movement`: apply approved moves. -/
def apply_intents (guards : List Guard) (approved : List MoveIntent)
    (rate : Nat) : List Guard :=
  approved.foldl
    (fun guards intent =>
      let g := guards.getD intent.guard_idx default
      let fc := if intent.dx < 0 then Facing.Left
        else if intent.dx > 0 then Facing.Right else g.facing
      guards.set intent.guard_idx
        { g with
          x := intent.target_x, y := intent.target_y,
          facing := fc, move_cooldown := rate })
    guards

/-- Phase 4 of `step::resolve_guard_movement`: recompute states.  Earlier
updates are visible to later guards' occupancy queries, as in the source. -/
def update_guard_states (w : WorldState) (guards : List Guard) : List Guard :=
  (List.range guards.length).foldl
    (fun guards i =>
      let g := guards.getD i default
      if g.state = ActorState.Dead ∨ g.state = ActorState.InHole then guards
      else
        let st := physics.resolve_state w.tiles w.width w.height w.hole_grid
          guards g.x g.y g.state
        guards.set i { g with state := st })
    guards

/-- Phase 5 of `step::resolve_guard_movement`: arm separation timers for
adjacent or overlapping active pairs. -/
def arm_separation (n sep_ticks : Nat) (guards : List Guard) : List Guard :=
  (List.range n).foldl
    (fun guards i =>
      let gi0 := guards.getD i default
      if gi0.state = ActorState.Dead ∨ gi0.state = ActorState.InHole then guards
      else
        (List.range' (i + 1) (n - (i + 1))).foldl
          (fun guards j =>
            let gi := guards.getD i default
            let gj := guards.getD j default
            if gj.state = ActorState.Dead ∨ gj.state = ActorState.InHole then
              guards
            else
              let dist := ((gi.x : Int) - (gj.x : Int)).natAbs
                + ((gi.y : Int) - (gj.y : Int)).natAbs
              if dist ≤ 1 then
                let guards :=
                  if gi.separation_timer = 0 then
                    guards.set i { gi with separation_timer := sep_ticks }
                  else guards
                let gj2 := guards.getD j default
                if gj2.separation_timer = 0 then
                  guards.set j { gj2 with separation_timer := sep_ticks }
                else guards
              else guards)
          guards)
    guards

/-- `step::resolve_guard_movement`: intent → resolve model, five phases. -/
def resolve_guard_movement (w : WorldState) : WorldState :=
  let px := w.player.x
  let py := w.player.y
  let w := { w with guards := w.guards.map fun g =>
    if g.separation_timer > 0 then { g with separation_timer := g.separation_timer - 1 }
    else g }
  let gi := collect_intents w px py
  let approved := approve_intents gi.1 gi.2
  let guards2 := apply_intents gi.1 approved w.speed.guard_move_rate
  let guards3 := update_guard_states w guards2
  let guards4 := arm_separation guards3.length ai.SEPARATION_TICKS guards3
  { w with guards := guards4 }

/-- `step::resolve_trap_bricks`: collapse TrapBrick below each actor. -/
def resolve_trap_bricks (w : WorldState) (events : List GameEvent) :
    WorldState × List GameEvent :=
  let positions :=
    (if w.player.alive then [(w.player.x, w.player.y)] else [])
    ++ (w.guards.filter fun g => g.state ≠ ActorState.Dead).map fun g => (g.x, g.y)
  positions.foldl
    (fun acc p =>
      let below_y := p.2 + 1
      if below_y ≥ acc.1.height then acc
      else if acc.1.terrain_at p.1 below_y = Tile.TrapBrick then
        (acc.1.set_tile p.1 below_y Tile.Empty,
         acc.2 ++ [GameEvent.TrapCollapsed p.1 below_y])
      else acc)
    (w, events)

/-- `step::guard_enter_hole`: trap a guard, maybe dropping carried gold. -/
def guard_enter_hole (w : WorldState) (idx : Nat) (hole_x : Nat)
    (drop_y : Option Nat) : WorldState :=
  let g := w.guards.getD idx default
  let g := { g with
    state := ActorState.InHole,
    stuck_timer := w.speed.trap_escape_ticks }
  let w := { w with guards := w.guards.set idx g }
  if g.carry_gold then
    match drop_y with
    | some dy =>
      if can_drop_gold_at w hole_x dy then
        let w := w.set_tile hole_x dy Tile.Gold
        let gd := { g with carry_gold := false, carry_gold_timer := 0 }
        { w with guards := w.guards.set idx gd }
      else w
    | none => w
  else w

/-- Player half of `step::resolve_gravity`. -/
def resolve_gravity_player (w : WorldState) (events : List GameEvent) :
    WorldState × List GameEvent :=
  if player_in_closing_hole w then (w, events)
  else
    let was_falling := w.player.state = ActorState.Falling
    let px := w.player.x
    let py := w.player.y
    let full_support := physics.has_support_for_player w.tiles w.width w.height
      w.hole_grid w.guards px py
    if ! full_support then
      if py + 1 < w.height ∧ (w.terrain_at px (py + 1)).is_passable then
        ({ w with player := { w.player with y := py + 1, state := ActorState.Falling } },
         if ! was_falling then events ++ [GameEvent.PlayerFallStart] else events)
      else (w, events)
    else if w.player.state = ActorState.Falling then
      let st := rules.resolve_state w.mapView px py w.player.state
      let st := if st = ActorState.Falling then ActorState.OnGround else st
      ({ w with player := { w.player with state := st, move_cooldown := 0 } }, events)
    else (w, events)

/-- Guard half of `step::resolve_gravity`, one guard. -/
def resolve_gravity_guard (w : WorldState) (i : Nat) : WorldState :=
  let g := w.guards.getD i default
  if g.state = ActorState.Dead ∨ g.state = ActorState.InHole then w
  else
    let gx := g.x
    let gy := g.y
    let here := physics.terrain_at w.tiles w.width w.height w.hole_grid gx gy
    if here.hole then
      if ! physics.has_trapped_guard_except w.guards gx gy i then
        guard_enter_hole w i gx (if gy > 0 then some (gy - 1) else none)
      else if g.state = ActorState.Falling then
        { w with guards := w.guards.set i { g with state := ActorState.OnGround } }
      else w
    else if physics.has_support_for_guard w.tiles w.width w.height w.hole_grid
        w.guards gx gy i then
      if g.state = ActorState.Falling then
        { w with guards := w.guards.set i { g with state := ActorState.OnGround } }
      else w
    else
      let ny := gy + 1
      if ny ≥ w.height then
        { w with guards := w.guards.set i { g with state := ActorState.OnGround } }
      else
        let below := physics.terrain_at w.tiles w.width w.height w.hole_grid gx ny
        if ! below.passable then
          { w with guards := w.guards.set i { g with state := ActorState.OnGround } }
        else if below.hole ∧ ! physics.has_trapped_guard w.guards gx ny then
          let w := { w with guards := w.guards.set i { g with y := ny } }
          guard_enter_hole w i gx (some gy)
        else if below.hole ∧ physics.has_trapped_guard w.guards gx ny then
          { w with guards := w.guards.set i { g with state := ActorState.OnGround } }
        else
          let gf := { g with y := ny, state := ActorState.Falling }
          { w with guards := w.guards.set i gf }

/-- `step::resolve_gravity` -/
def resolve_gravity (w : WorldState) (events : List GameEvent) :
    WorldState × List GameEvent :=
  let pe := resolve_gravity_player w events
  ((List.range pe.1.guards.length).foldl resolve_gravity_guard pe.1, pe.2)

/-- `step::resolve_hole_traps`: trap guards that walked onto a hole. -/
def resolve_hole_traps (w : WorldState) (events : List GameEvent) :
    WorldState × List GameEvent :=
  (List.range w.guards.length).foldl
    (fun acc i =>
      let g := acc.1.guards.getD i default
      if g.state = ActorState.InHole ∨ g.state = ActorState.Dead then acc
      else
        let here := physics.terrain_at acc.1.tiles acc.1.width acc.1.height
          acc.1.hole_grid g.x g.y
        if here.hole ∧ ! physics.has_trapped_guard_except acc.1.guards g.x g.y i then
          (guard_enter_hole acc.1 i g.x (if g.y > 0 then some (g.y - 1) else none),
           acc.2 ++ [GameEvent.GuardTrapped g.id g.x g.y])
        else acc)
    (w, events)

/-- Column scan used by `step::enable_exit`: all columns holding a
climbable tile. -/
def auto_exit_columns (w : WorldState) : List Nat :=
  (List.range w.width).filter fun x =>
    (List.range w.height).any fun y => (w.terrain_at x y).is_climbable

/-- Column-extension pass of `step::enable_exit`: stamp HiddenLadder above
the topmost climbable tile of each column; the flag records whether
anything was placed. -/
def stamp_columns (w : WorldState) (columns : List Nat) :
    WorldState × Bool :=
  columns.foldl
    (fun acc x =>
      match (List.range acc.1.height).find?
          (fun y => (acc.1.terrain_at x y).is_climbable) with
      | none => acc
      | some ly =>
        (List.range ly).foldl
          (fun acc2 y =>
            if acc2.1.terrain_at x y = Tile.Empty then
              (acc2.1.set_tile x y Tile.HiddenLadder, true)
            else acc2)
          acc)
    (w, false)

/-- `step::enable_exit`: reveal hidden ladders when all gold is taken. -/
def enable_exit (w : WorldState) : WorldState :=
  let w := { w with exit_enabled := true }
  if w.hidden_ladder_positions ≠ [] then
    w.hidden_ladder_positions.foldl
      (fun w p =>
        if p.2 < w.height ∧ p.1 < w.width ∧ w.terrain_at p.1 p.2 = Tile.Empty then
          w.set_tile p.1 p.2 Tile.HiddenLadder
        else w)
      w
  else
    let columns := if w.exit_columns = [] then auto_exit_columns w
      else w.exit_columns
    let wp := stamp_columns w columns
    if ! wp.2 ∧ w.exit_columns ≠ [] then
      (stamp_columns wp.1 (auto_exit_columns wp.1)).1
    else wp.1

/-- Player half of `step::resolve_gold_pickup`. -/
def resolve_gold_pickup_player (w : WorldState) (events : List GameEvent) :
    WorldState × List GameEvent :=
  let px := w.player.x
  let py := w.player.y
  if w.terrain_at px py = Tile.Gold then
    let w := w.set_tile px py Tile.Empty
    let w := { w with
      gold_remaining := w.gold_remaining - 1,
      score := w.score + 100 }
    let events := events ++ [GameEvent.GoldPicked px py]
    if w.gold_remaining = 0 then
      ((enable_exit w).set_message "All tokens mined! Escape to the top!" 80,
       events ++ [GameEvent.AllGoldCollected])
    else (w, events)
  else (w, events)

/-- Loop body of the guard half of `step::resolve_gold_pickup`. -/
def gold_pickup_guard_body (w : WorldState) (i : Nat) : WorldState :=
  let g := w.guards.getD i default
  if g.state = ActorState.Dead ∨ g.state = ActorState.InHole then w
  else if g.carry_gold then w
  else if w.terrain_at g.x g.y = Tile.Gold then
    let w := w.set_tile g.x g.y Tile.Empty
    let gp := { g with carry_gold := true, carry_gold_timer := 0 }
    { w with guards := w.guards.set i gp }
  else w

/-- Guard half of `step::resolve_gold_pickup`: guards pick gold up with
no score effect. -/
def resolve_gold_pickup_guards (w : WorldState) : WorldState :=
  (List.range w.guards.length).foldl gold_pickup_guard_body w

/-- `step::resolve_gold_pickup` -/
def resolve_gold_pickup (w : WorldState) (events : List GameEvent) :
    WorldState × List GameEvent :=
  let pe := resolve_gold_pickup_player w events
  (resolve_gold_pickup_guards pe.1, pe.2)

/-- `step::resolve_guard_gold_drop`: carry-timeout gold drops. -/
def resolve_guard_gold_drop (w : WorldState) (events : List GameEvent) :
    WorldState × List GameEvent :=
  let limit := w.speed.gold_carry_ticks
  if limit = 0 then (w, events)
  else
    (List.range w.guards.length).foldl
      (fun acc i =>
        let g := acc.1.guards.getD i default
        if ! g.carry_gold then acc
        else if g.state = ActorState.Dead then acc
        else
          let g := { g with carry_gold_timer := g.carry_gold_timer + 1 }
          let w := { acc.1 with guards := acc.1.guards.set i g }
          if g.carry_gold_timer ≥ limit then
            if can_drop_gold_at w g.x g.y then
              let w := w.set_tile g.x g.y Tile.Gold
              let gd := { g with carry_gold := false, carry_gold_timer := 0 }
              ({ w with guards := w.guards.set i gd },
               acc.2 ++ [GameEvent.GuardDroppedGold g.x g.y])
            else (w, acc.2)
          else (w, acc.2))
      (w, events)

/-- `step::player_die` -/
def player_die (w : WorldState) : WorldState :=
  { w with
    player := { w.player with alive := false },
    phase := Phase.Dying, anim_tick := 0 }

/-- `step::resolve_enemy_collision`: guard on or above the player kills;
the Bool short-circuits the remaining pipeline. -/
def resolve_enemy_collision (w : WorldState) (events : List GameEvent) :
    WorldState × List GameEvent × Bool :=
  if ! w.player.alive then (w, events, false)
  else
    let px := w.player.x
    let py := w.player.y
    if w.guards.any (fun g =>
        g.state != ActorState.Dead && g.state != ActorState.InHole
        && ((g.x == px && g.y == py)
            || (py > 0 && g.x == px && g.y == py - 1))) then
      (player_die w, events ++ [GameEvent.PlayerKilled], true)
    else (w, events, false)

/-- One escape attempt of `step::try_escape` in direction `dx`;
`none` when this direction fails all checks. -/
def try_escape_dir (w : WorldState) (i : Nat) (dx : Int) : Option WorldState :=
  let g := w.guards.getD i default
  let gx := g.x
  let gy := g.y
  if gy = 0 then none
  else
    let ey := gy - 1
    let exi := (gx : Int) + dx
    if exi < 0 then none
    else
      let ex := exi.toNat
      if ex ≥ w.width then none
      else if ! (physics.terrain_at w.tiles w.width w.height w.hole_grid
          ex ey).passable then none
      else if ! physics.has_support w.tiles w.width w.height w.hole_grid
          w.guards ex ey then none
      else if (List.range w.guards.length).any (fun j =>
          j != i && (w.guards.getD j default).state != ActorState.Dead
          && (w.guards.getD j default).x == ex
          && (w.guards.getD j default).y == ey) then none
      else
        let g2 := { g with
          x := ex, y := ey, state := ActorState.OnGround,
          facing := if dx < 0 then Facing.Left
            else if dx > 0 then Facing.Right else g.facing }
        let w := { w with guards := w.guards.set i g2 }
        let w :=
          if g2.carry_gold ∧ gy > 0 then
            if can_drop_gold_at w gx (gy - 1) then
              let w := w.set_tile gx (gy - 1) Tile.Gold
              let gd := { g2 with carry_gold := false, carry_gold_timer := 0 }
              { w with guards := w.guards.set i gd }
            else w
          else w
        let gf := w.guards.getD i default
        let st := physics.resolve_state w.tiles w.width w.height w.hole_grid
          w.guards gf.x gf.y gf.state
        some { w with guards := w.guards.set i { gf with state := st } }

/-- `step::try_escape`: diagonals toward the player's side first. -/
def try_escape (w : WorldState) (i : Nat) : WorldState :=
  let g := w.guards.getD i default
  let d1 : Int := if w.player.x > g.x then 1 else -1
  match try_escape_dir w i d1 with
  | some w2 => w2
  | none =>
    match try_escape_dir w i (-d1) with
    | some w2 => w2
    | none => w

/-- The InHole half of the timer loop body in `step::resolve_timers`:
stuck-timer countdown and escape attempt. -/
def guard_timer_stuck (w : WorldState) (i : Nat) : WorldState :=
  let g := w.guards.getD i default
  if g.state = ActorState.InHole then
    let g := if g.stuck_timer > 0 then { g with stuck_timer := g.stuck_timer - 1 }
      else g
    let w := { w with guards := w.guards.set i g }
    if g.stuck_timer = 0 then try_escape w i else w
  else w

/-- The Dead half of the timer loop body in `step::resolve_timers`:
respawn countdown and respawn placement. -/
def guard_timer_respawn (w : WorldState) (i : Nat) (events : List GameEvent) :
    WorldState × List GameEvent :=
  let g := w.guards.getD i default
  if g.state = ActorState.Dead then
    let g := { g with respawn_timer := g.respawn_timer + 1 }
    let w := { w with guards := w.guards.set i g }
    if g.respawn_timer ≥ w.speed.guard_respawn_ticks then
      let rx := g.spawn_x
      if (List.range w.guards.length).any (fun j =>
          j != i && (w.guards.getD j default).state != ActorState.Dead
          && (w.guards.getD j default).x == rx
          && (w.guards.getD j default).y == 1) then
        (w, events)
      else
        let gr := { g with
          x := rx, y := 1, state := ActorState.OnGround,
          respawn_timer := 0, carry_gold := false, carry_gold_timer := 0,
          separation_timer := 0 }
        ({ w with guards := w.guards.set i gr },
         events ++ [GameEvent.GuardRespawned g.id])
    else (w, events)
  else (w, events)

/-- Per-guard body of the timer loop in `step::resolve_timers`:
hole-escape countdown, then death-respawn countdown. -/
def guard_timer_body (w : WorldState) (i : Nat) (events : List GameEvent) :
    WorldState × List GameEvent :=
  guard_timer_respawn (guard_timer_stuck w i) i events

/-- Per-guard body of the seal loop in `step::resolve_timers`. -/
def seal_guard_body (hx hy : Nat) (acc : WorldState × List GameEvent)
    (i : Nat) : WorldState × List GameEvent :=
  let g := acc.1.guards.getD i default
  if g.x ≠ hx ∨ g.y ≠ hy then acc
  else if g.state = ActorState.InHole then
    let g2 := { g with state := ActorState.Dead, respawn_timer := 0 }
    let w := { acc.1 with
      guards := acc.1.guards.set i g2,
      score := acc.1.score + 50 }
    let events := acc.2 ++ [GameEvent.GuardKilled g.id hx hy]
    if g2.carry_gold then
      let gd := { g2 with carry_gold := false, carry_gold_timer := 0 }
      let w := { w with guards := w.guards.set i gd }
      if hy > 0 ∧ can_drop_gold_at w hx (hy - 1) then
        (w.set_tile hx (hy - 1) Tile.Gold, events)
      else (w, events)
    else (w, events)
  else if g.state ≠ ActorState.Dead then
    if hy > 0 ∧ (acc.1.terrain_at hx (hy - 1)).is_passable then
      ({ acc.1 with guards := acc.1.guards.set i { g with y := g.y - 1 } },
       acc.2)
    else acc
  else acc

/-- Per-expired-hole body of `step::resolve_timers`: restore the brick,
bury the player, kill trapped guards (dropping their gold above when
possible), push other guards up. -/
def seal_hole (w : WorldState) (hx hy : Nat) (events : List GameEvent) :
    WorldState × List GameEvent :=
  let w := w.clear_tile hx hy
  let events := events ++ [GameEvent.HoleFilled hx hy]
  let we :=
    if w.player.x = hx ∧ w.player.y = hy ∧ w.player.alive then
      (player_die w, events ++ [GameEvent.PlayerKilled])
    else (w, events)
  (List.range we.1.guards.length).foldl (seal_guard_body hx hy) we

/-- `step::resolve_timers`: guard timers, then the two-phase hole
lifecycle.  Expired holes run their seal effects in reverse index order;
the effects never read the hole list, so the removals are applied once at
the end, and the grid is rebuilt only when something expired — exactly as
in the source. -/
def resolve_timers (w : WorldState) (events : List GameEvent) :
    WorldState × List GameEvent :=
  let we := (List.range w.guards.length).foldl
    (fun acc i => guard_timer_body acc.1 i acc.2) (w, events)
  let ticked := we.1.holes.map Hole.tickHole
  let expired := ticked.filter fun h => ! h.is_active
  let kept := ticked.filter fun h => h.is_active
  let we2 := expired.reverse.foldl
    (fun acc h => seal_hole acc.1 h.x h.y acc.2) we
  let w := { we2.1 with holes := kept }
  (if expired.isEmpty then w else w.rebuild_hole_grid, we2.2)

/-- `step::resolve_win`: alive player on row 0 with exit enabled clears. -/
def resolve_win (w : WorldState) (events : List GameEvent) :
    WorldState × List GameEvent :=
  if ! w.player.alive then (w, events)
  else if w.exit_enabled ∧ w.player.y = 0 then
    let w := { w with
      phase := Phase.LevelOutro, anim_tick := 0,
      anim_player_y := 0, score := w.score + 500 }
    (w.set_message ("Node " ++ toString (w.current_level + 1) ++ " Complete! +500") 80,
     events ++ [GameEvent.StageCleared])
  else (w, events)

/-- `step::step`: advance the world by one tick. -/
def step (w : WorldState) (input : FrameInput) : WorldState × List GameEvent :=
  if w.phase ≠ Phase.Playing then (w, [])
  else
    let w := { w with tick := w.tick + 1 }
    let w :=
      if w.message_timer > 0 then
        let w := { w with message_timer := w.message_timer - 1 }
        if w.message_timer = 0 then { w with message := "" } else w
      else w
    let we := resolve_dig w input.dig []
    let we := resolve_dig_progress we.1 we.2
    let w := we.1.rebuild_hole_grid
    let w := resolve_player_movement w input.movement
    let w := resolve_guard_movement w
    let we := resolve_trap_bricks w we.2
    let we := resolve_gravity we.1 we.2
    let we := resolve_hole_traps we.1 we.2
    let we := resolve_gold_pickup we.1 we.2
    let we := resolve_guard_gold_drop we.1 we.2
    let weh := resolve_enemy_collision we.1 we.2
    if weh.2.2 then (weh.1, weh.2.1)
    else
      let we := resolve_timers weh.1 weh.2.1
      let we := resolve_win we.1 we.2
      we

end step

/- ════════════════════════════════════════════════════════════════
   Grid helper lemmas
   ════════════════════════════════════════════════════════════════ -/

theorem getD_set_self {α : Type _} (l : List α) (i : Nat) (a d : α)
    (h : i < l.length) : (l.set i a).getD i d = a := by
  rw [List.getD_eq_getElem?_getD, List.getElem?_set_self h]
  rfl

theorem getD_set_ne {α : Type _} (l : List α) (i j : Nat) (a d : α)
    (h : i ≠ j) : (l.set i a).getD j d = l.getD j d := by
  rw [List.getD_eq_getElem?_getD, List.getElem?_set_ne h,
    ← List.getD_eq_getElem?_getD]

theorem getD_replicate {α : Type _} (n : Nat) (c d : α) (i : Nat) :
    (List.replicate n c).getD i d = if i < n then c else d := by
  by_cases h : i < n
  · rw [List.getD_eq_getElem?_getD, List.getElem?_replicate, if_pos h]
    simp [h]
  · rw [List.getD_eq_default]
    · simp [h]
    · simpa using le_of_not_lt h

theorem get2_of_length_le (g : List (List Bool)) (x y : Nat)
    (h : g.length ≤ y) : get2 g x y = false := by
  unfold get2
  rw [List.getD_eq_default g [] h]
  simp

theorem get2_of_row_le (g : List (List Bool)) (x y : Nat)
    (h : (g.getD y []).length ≤ x) : get2 g x y = false := by
  unfold get2
  rw [List.getD_eq_default _ _ h]

theorem get2_true_bounds (g : List (List Bool)) (x y : Nat)
    (h : get2 g x y = true) :
    y < g.length ∧ x < (g.getD y []).length := by
  constructor
  · by_contra hy
    push_neg at hy
    rw [get2_of_length_le g x y hy] at h
    exact Bool.false_ne_true h
  · by_contra hx
    push_neg at hx
    rw [get2_of_row_le g x y hx] at h
    exact Bool.false_ne_true h

theorem get2_mkGrid (W H : Nat) (x y : Nat) :
    get2 (mkGrid W H false) x y = false := by
  unfold get2 mkGrid
  rw [getD_replicate]
  by_cases hy : y < H
  · rw [if_pos hy, getD_replicate]
    split <;> rfl
  · rw [if_neg hy]
    rfl

theorem mkGrid_length (W H : Nat) : (mkGrid W H false).length = H := by
  simp [mkGrid]

theorem mkGrid_row_length (W H : Nat) (j : Nat) (hj : j < H) :
    ((mkGrid W H false).getD j []).length = W := by
  unfold mkGrid
  rw [getD_replicate, if_pos hj]
  simp

theorem set2_length (g : List (List Bool)) (x y : Nat) (b : Bool) :
    (set2 g x y b).length = g.length := by
  simp [set2]

theorem set2_row_length (g : List (List Bool)) (x y : Nat) (b : Bool) (j : Nat) :
    ((set2 g x y b).getD j []).length = (g.getD j []).length := by
  unfold set2
  by_cases hjy : y = j
  · subst hjy
    by_cases hy : y < g.length
    · rw [getD_set_self _ _ _ _ hy]
      simp
    · rw [List.set_eq_of_length_le (le_of_not_lt hy)]
  · rw [getD_set_ne _ _ _ _ _ hjy]

theorem get2_set2_of_ne (g : List (List Bool)) (x0 y0 x y : Nat) (b : Bool)
    (hne : ¬(x = x0 ∧ y = y0)) :
    get2 (set2 g x0 y0 b) x y = get2 g x y := by
  unfold get2 set2
  by_cases hy : y0 = y
  · subst hy
    have hx : x0 ≠ x := fun hx => hne ⟨hx.symm, rfl⟩
    by_cases hlen : y0 < g.length
    · rw [getD_set_self _ _ _ _ hlen, getD_set_ne _ _ _ _ _ hx]
    · rw [List.set_eq_of_length_le (le_of_not_lt hlen)]
  · rw [getD_set_ne _ _ _ _ _ hy]

theorem get2_set2_self (g : List (List Bool)) (x y : Nat) (b : Bool)
    (hy : y < g.length) (hx : x < (g.getD y []).length) :
    get2 (set2 g x y b) x y = b := by
  unfold get2 set2
  rw [getD_set_self _ _ _ _ hy, getD_set_self _ _ _ _ hx]

/-- Generic projection-preservation through a left fold. -/
theorem foldl_proj {σ α β : Type _} (proj : σ → β) (f : σ → α → σ)
    (hf : ∀ s a, proj (f s a) = proj s) :
    ∀ (l : List α) (s : σ), proj (l.foldl f s) = proj s := by
  intro l
  induction l with
  | nil => intro s; rfl
  | cons a t ih => intro s; rw [List.foldl_cons, ih, hf]

/-- A left fold over indices that a predicate says are all inert. -/
theorem foldl_skip {σ : Type _} (f : σ → Nat → σ) :
    ∀ (l : List Nat) (s : σ), (∀ j ∈ l, f s j = s) → l.foldl f s = s := by
  intro l
  induction l with
  | nil => intro s _; rfl
  | cons a t ih =>
    intro s h
    rw [List.foldl_cons, h a (by simp)]
    exact ih s fun j hj => h j (by simp [hj])

/-- Splitting a fold over `range n` at an index `i < n`. -/
theorem foldl_range_split {σ : Type _} (f : σ → Nat → σ) (n i : Nat)
    (hi : i < n) (s : σ) :
    (List.range n).foldl f s =
      (List.range' (i + 1) (n - (i + 1))).foldl f
        (f ((List.range i).foldl f s) i) := by
  have h1 : List.range n = List.range i ++ List.range' i (n - i) := by
    rw [List.range_eq_range', List.range_eq_range']
    have := List.range'_append 0 i (n - i) 1
    simp only [Nat.zero_add, Nat.one_mul] at this
    rw [this]
    congr 1
    omega
  have h2 : List.range' i (n - i) = i :: List.range' (i + 1) (n - (i + 1)) := by
    have h3 : n - i = (n - (i + 1)) + 1 := by omega
    rw [h3, List.range'_succ]
  rw [h1, List.foldl_append, h2, List.foldl_cons]

/- ════════════════════════════════════════════════════════════════
   C3 — support asymmetry between player and guards
   ════════════════════════════════════════════════════════════════ -/

/-- C3: bottom row always has support; where terrain alone gives none, a
trapped (InHole) guard directly below supports the player and any other
guard (but not itself, via the self-excluding check); an OnGround guard
below supports the player only; a Dead or Falling guard below supports no
one.  `g0` is a bystander guard not at the cell below, `g1` sits directly
below the queried cell. -/
theorem support_asymmetry (tiles : List (List Tile)) (width height : Nat)
    (hole_grid : List (List Bool)) (x y : Nat) (g0 g1 : Guard)
    (hg0 : ¬(g0.x = x ∧ g0.y = y + 1))
    (hx1 : g1.x = x) (hy1 : g1.y = y + 1) :
    (y + 1 ≥ height →
      physics.terrain_support tiles width height hole_grid x y = true
      ∧ physics.has_support tiles width height hole_grid [g0, g1] x y = true
      ∧ physics.has_support_for_player tiles width height hole_grid [g0, g1] x y = true
      ∧ physics.has_support_for_guard tiles width height hole_grid [g0, g1] x y 0 = true)
    ∧ (physics.terrain_support tiles width height hole_grid x y = false →
       y + 1 < height →
      (g1.state = ActorState.InHole →
        physics.has_support tiles width height hole_grid [g0, g1] x y = true
        ∧ physics.has_support_for_player tiles width height hole_grid [g0, g1] x y = true
        ∧ physics.has_support_for_guard tiles width height hole_grid [g0, g1] x y 0 = true
        ∧ physics.has_support_for_guard tiles width height hole_grid [g0, g1] x y 1 = false)
      ∧ (g1.state = ActorState.OnGround →
        physics.has_support_for_player tiles width height hole_grid [g0, g1] x y = true
        ∧ physics.has_support tiles width height hole_grid [g0, g1] x y = false
        ∧ physics.has_support_for_guard tiles width height hole_grid [g0, g1] x y 0 = false)
      ∧ ((g1.state = ActorState.Dead ∨ g1.state = ActorState.Falling) →
        physics.has_support tiles width height hole_grid [g0, g1] x y = false
        ∧ physics.has_support_for_player tiles width height hole_grid [g0, g1] x y = false
        ∧ physics.has_support_for_guard tiles width height hole_grid [g0, g1] x y 0 = false)) := by
  have h0 : ¬(g0.x = x) ∨ ¬(g0.y = y + 1) := by tauto
  have hmatch0 : (g0.x == x && g0.y == y + 1) = false := by
    rcases h0 with h | h <;> simp [h]
  have hrange2 : List.range 2 = [0, 1] := rfl
  have htg : physics.has_trapped_guard [g0, g1] x (y + 1)
      = (g1.state == ActorState.InHole) := by
    unfold physics.has_trapped_guard
    simp only [List.any_cons, List.any_nil, Bool.or_false]
    rcases h0 with h | h <;> simp [h, hx1, hy1]
  have hsg : physics.has_standing_guard [g0, g1] x (y + 1)
      = (g1.state != ActorState.Dead && g1.state != ActorState.Falling) := by
    unfold physics.has_standing_guard
    simp only [List.any_cons, List.any_nil, Bool.or_false]
    rcases h0 with h | h <;> simp [h, hx1, hy1, Bool.and_assoc]
  have htge0 : physics.has_trapped_guard_except [g0, g1] x (y + 1) 0
      = (g1.state == ActorState.InHole) := by
    unfold physics.has_trapped_guard_except
    simp only [List.length_cons, List.length_nil]
    rw [hrange2]
    simp [hx1, hy1]
  have htge1 : physics.has_trapped_guard_except [g0, g1] x (y + 1) 1 = false := by
    unfold physics.has_trapped_guard_except
    simp only [List.length_cons, List.length_nil]
    rw [hrange2]
    rcases h0 with h | h <;> simp [h]
  constructor
  · intro hbot
    have ht : physics.terrain_support tiles width height hole_grid x y = true := by
      unfold physics.terrain_support
      rw [if_pos hbot]
    exact ⟨ht,
      by unfold physics.has_support; simp [ht],
      by unfold physics.has_support_for_player; simp [ht],
      by unfold physics.has_support_for_guard; simp [ht]⟩
  · intro hterr hlt
    refine ⟨fun hin => ?_, fun hon => ?_, fun hdf => ?_⟩
    · refine ⟨?_, ?_, ?_, ?_⟩
      · unfold physics.has_support
        simp [hterr, hlt, htg, hin]
      · unfold physics.has_support_for_player
        simp [hterr, hlt, hsg, hin]
      · unfold physics.has_support_for_guard
        simp [hterr, hlt, htge0, hin]
      · unfold physics.has_support_for_guard
        simp [hterr, hlt, htge1]
    · refine ⟨?_, ?_, ?_⟩
      · unfold physics.has_support_for_player
        simp [hterr, hlt, hsg, hon]
      · unfold physics.has_support
        simp [hterr, hlt, htg, hon]
      · unfold physics.has_support_for_guard
        simp [hterr, hlt, htge0, hon]
    · refine ⟨?_, ?_, ?_⟩
      · unfold physics.has_support
        rcases hdf with h | h <;> simp [hterr, hlt, htg, h]
      · unfold physics.has_support_for_player
        rcases hdf with h | h <;> simp [hterr, hlt, hsg, h]
      · unfold physics.has_support_for_guard
        rcases hdf with h | h <;> simp [hterr, hlt, htge0, h]

/-- Witness for C3 at concrete inputs: a 1×2 all-Empty grid, querying
(0,0), with the bystander `g0` away at (0,0) and `g1` below at (0,1);
all three scenario branches evaluated with `g1` InHole. -/
theorem support_asymmetry_witness :
    (¬((0 : Nat) = 0 ∧ (0 : Nat) = 0 + 1))
    ∧ (physics.terrain_support [[Tile.Empty], [Tile.Empty]] 1 2 (mkGrid 1 2 false) 0 0 = false
       ∧ physics.has_support [[Tile.Empty], [Tile.Empty]] 1 2 (mkGrid 1 2 false)
          [{ (default : Guard) with x := 0, y := 0 },
           { (default : Guard) with x := 0, y := 1, state := ActorState.InHole }] 0 0 = true) := by
  have h := support_asymmetry [[Tile.Empty], [Tile.Empty]] 1 2 (mkGrid 1 2 false) 0 0
    { (default : Guard) with x := 0, y := 0 }
    { (default : Guard) with x := 0, y := 1, state := ActorState.InHole }
    (by decide) (by decide) (by decide)
  refine ⟨by decide, by decide, ?_⟩
  exact ((h.2 (by decide) (by decide)).1 rfl).1

/- ════════════════════════════════════════════════════════════════
   C4 — can_dig contract
   ════════════════════════════════════════════════════════════════ -/

/-- The side cell in the facing direction, as the claim words it. -/
def digSide : Facing → Nat → Nat
  | Facing.Left, x => x - 1
  | Facing.Right, x => x + 1

theorem is_immobile_eq_false (state : ActorState) :
    rules.is_immobile state = false ↔
      state ≠ ActorState.Falling ∧ state ≠ ActorState.Dead
        ∧ state ≠ ActorState.InHole := by
  cases state <;> simp [rules.is_immobile]

theorem can_dig_side_contract (m : MapView) (y : Nat) (t : Nat × Nat)
    (sx : Nat) :
    rules.can_dig.can_dig_side m y sx = some t ↔
      (y + 1 < m.height ∧ (m.tile_at sx y).is_passable = true
       ∧ (m.tile_at sx y).is_climbable = false
       ∧ (m.tile_at sx (y + 1)).is_diggable = true
       ∧ t = (sx, y + 1)) := by
  unfold rules.can_dig.can_dig_side MapView.is_passable
  dsimp only
  split_ifs with h1 h2 h3 h4
  · constructor
    · intro h
      exact h.elim
    · rintro ⟨k, _⟩
      omega
  · constructor
    · intro h
      exact h.elim
    · rintro ⟨_, k, _⟩
      rw [k] at h2
      exact absurd h2 (by decide)
  · constructor
    · intro h
      exact h.elim
    · rintro ⟨_, _, k, _⟩
      rw [k] at h3
      exact Bool.false_ne_true h3
  · constructor
    · intro h
      obtain rfl := Option.some_inj.mp h
      refine ⟨by omega, ?_, ?_, h4, rfl⟩
      · revert h2
        cases (m.tile_at sx y).is_passable <;> simp
      · revert h3
        cases (m.tile_at sx y).is_climbable <;> simp
    · rintro ⟨_, _, _, _, rfl⟩
      rfl
  · constructor
    · intro h
      exact h.elim
    · rintro ⟨_, _, _, k, _⟩
      exact h4 k

/-- C4: `can_dig` returns `some target` iff the actor is not
Falling/Dead/InHole, has terrain support or is OnLadder/OnRope, the side
cell in the facing direction is inside the horizontal bounds, the row
below it is inside the vertical bounds, the side tile is passable and not
climbable, and the target tile (one row below the side cell) is diggable —
and then the target is exactly that cell. -/
theorem can_dig_contract (m : MapView) (x y : Nat) (state : ActorState)
    (dir : Facing) (t : Nat × Nat) :
    rules.can_dig m x y state dir = some t ↔
      ((state ≠ ActorState.Falling ∧ state ≠ ActorState.Dead
          ∧ state ≠ ActorState.InHole)
       ∧ (m.has_support x y = true ∨ state = ActorState.OnLadder
          ∨ state = ActorState.OnRope)
       ∧ (dir = Facing.Left → x ≠ 0)
       ∧ (dir = Facing.Right → x + 1 < m.width)
       ∧ y + 1 < m.height
       ∧ (m.tile_at (digSide dir x) y).is_passable = true
       ∧ (m.tile_at (digSide dir x) y).is_climbable = false
       ∧ (m.tile_at (digSide dir x) (y + 1)).is_diggable = true
       ∧ t = (digSide dir x, y + 1)) := by
  have himm : ∀ (P : Prop) (h1 : rules.is_immobile state = true),
      (state ≠ ActorState.Falling ∧ state ≠ ActorState.Dead
        ∧ state ≠ ActorState.InHole) → P := by
    intro P h1 hf
    rw [(is_immobile_eq_false state).mpr hf] at h1
    exact absurd h1 (by simp)
  have hsup2 : ∀ (h2 : ¬((! m.has_support x y) = true
        ∧ state ≠ ActorState.OnLadder ∧ state ≠ ActorState.OnRope)),
      (m.has_support x y = true ∨ state = ActorState.OnLadder
        ∨ state = ActorState.OnRope) := by
    intro h2
    by_cases hs : m.has_support x y = true
    · exact Or.inl hs
    · have hb : m.has_support x y = false := by
        revert hs
        cases m.has_support x y <;> simp
      right
      by_cases hl : state = ActorState.OnLadder
      · exact Or.inl hl
      · right
        by_contra hr
        exact h2 ⟨by simp [hb], hl, hr⟩
  have hmob : ∀ (h1 : ¬(rules.is_immobile state = true)),
      state ≠ ActorState.Falling ∧ state ≠ ActorState.Dead
        ∧ state ≠ ActorState.InHole := by
    intro h1
    refine (is_immobile_eq_false state).mp ?_
    revert h1
    cases rules.is_immobile state <;> simp
  cases dir
  case Left =>
    unfold rules.can_dig
    simp only [digSide]
    split_ifs with h1 h2 h3
    · constructor
      · intro h
        exact h.elim
      · rintro ⟨hf, _⟩
        exact himm _ h1 hf
    · constructor
      · intro h
        exact h.elim
      · rintro ⟨_, hsup, _⟩
        rcases hsup with hs | hs | hs
        · rw [hs] at h2
          exact absurd h2.1 (by decide)
        · exact h2.2.1 hs
        · exact h2.2.2 hs
    · constructor
      · intro h
        exact h.elim
      · rintro ⟨_, _, hL, _⟩
        exact absurd (by simpa using h3) (hL trivial)
    · rw [can_dig_side_contract]
      constructor
      · rintro ⟨k1, k2, k3, k4, k5⟩
        exact ⟨hmob h1, hsup2 h2, fun _ => by simpa using h3, fun hc => hc.elim,
          k1, k2, k3, k4, k5⟩
      · rintro ⟨_, _, _, _, k1, k2, k3, k4, k5⟩
        exact ⟨k1, k2, k3, k4, k5⟩
  case Right =>
    unfold rules.can_dig
    simp only [digSide]
    split_ifs with h1 h2 h3
    · constructor
      · intro h
        exact h.elim
      · rintro ⟨hf, _⟩
        exact himm _ h1 hf
    · constructor
      · intro h
        exact h.elim
      · rintro ⟨_, hsup, _⟩
        rcases hsup with hs | hs | hs
        · rw [hs] at h2
          exact absurd h2.1 (by decide)
        · exact h2.2.1 hs
        · exact h2.2.2 hs
    · constructor
      · intro h
        exact h.elim
      · rintro ⟨_, _, _, hR, _⟩
        have := hR trivial
        omega
    · rw [can_dig_side_contract]
      constructor
      · rintro ⟨k1, k2, k3, k4, k5⟩
        exact ⟨hmob h1, hsup2 h2, fun hc => hc.elim, fun _ => by omega,
          k1, k2, k3, k4, k5⟩
      · rintro ⟨_, _, _, _, k1, k2, k3, k4, k5⟩
        exact ⟨k1, k2, k3, k4, k5⟩

/-- Witness for C4 at a concrete input: standing on ground over bricks,
digging right from (1,0) targets (2,1). -/
theorem can_dig_contract_witness :
    rules.can_dig ⟨[[Tile.Empty, Tile.Empty, Tile.Empty],
      [Tile.Brick, Tile.Brick, Tile.Brick]], 3, 2⟩ 1 0
      ActorState.OnGround Facing.Right = some (2, 1) :=
  (can_dig_contract ⟨[[Tile.Empty, Tile.Empty, Tile.Empty],
      [Tile.Brick, Tile.Brick, Tile.Brick]], 3, 2⟩ 1 0
      ActorState.OnGround Facing.Right (2, 1)).2
    ⟨by decide, Or.inl (by decide), by decide, by decide, by decide,
     by decide, by decide, by decide, by decide⟩

/- ════════════════════════════════════════════════════════════════
   C1 — terrain_at contract
   ════════════════════════════════════════════════════════════════ -/

/-- C1: `terrain_at(x,y)` satisfies its full contract: out of bounds
(x ≥ width or y ≥ height) yields a wall (non-passable, non-climbable,
non-hangable, non-hole); an active hole marked at (x,y) in the hole grid
yields passable=true, climbable=false, hangable=false, hole=true regardless
of the underlying tile; otherwise exactly the underlying tile's
passable/climbable/hangable with hole=false. -/
theorem terrain_at_contract (tiles : List (List Tile)) (width height : Nat)
    (hole_grid : List (List Bool)) (x y : Nat) :
    (x ≥ width ∨ y ≥ height →
      physics.terrain_at tiles width height hole_grid x y
        = ⟨false, false, false, false⟩)
    ∧ (x < width → y < height → get2 hole_grid x y = true →
      physics.terrain_at tiles width height hole_grid x y
        = ⟨true, false, false, true⟩)
    ∧ (x < width → y < height → get2 hole_grid x y = false →
      physics.terrain_at tiles width height hole_grid x y
        = ⟨(getTile tiles x y).is_passable, (getTile tiles x y).is_climbable,
           (getTile tiles x y).is_hangable, false⟩) := by
  refine ⟨fun hoob => ?_, fun hx hy hhole => ?_, fun hx hy hnohole => ?_⟩
  · unfold physics.terrain_at
    rw [if_pos]
    omega
  · unfold physics.terrain_at
    rw [if_neg (by omega)]
    obtain ⟨hb1, hb2⟩ := get2_true_bounds hole_grid x y hhole
    rw [if_pos ⟨hb1, hb2, hhole⟩]
  · unfold physics.terrain_at
    rw [if_neg (by omega), if_neg (by simp [hnohole])]

/-- Witness for C1 at concrete inputs: a 1×1 Brick grid with a hole, and
the same grid without a hole. -/
theorem terrain_at_contract_witness :
    ((5 ≥ 1 ∨ 5 ≥ 1) ∧
      physics.terrain_at [[Tile.Brick]] 1 1 [[true]] 5 5
        = ⟨false, false, false, false⟩)
    ∧ (0 < 1 ∧ get2 [[true]] 0 0 = true ∧
      physics.terrain_at [[Tile.Brick]] 1 1 [[true]] 0 0
        = ⟨true, false, false, true⟩)
    ∧ (get2 [[false]] 0 0 = false ∧
      physics.terrain_at [[Tile.Brick]] 1 1 [[false]] 0 0
        = ⟨(getTile [[Tile.Brick]] 0 0).is_passable,
           (getTile [[Tile.Brick]] 0 0).is_climbable,
           (getTile [[Tile.Brick]] 0 0).is_hangable, false⟩) :=
  ⟨⟨Or.inl (by decide),
    (terrain_at_contract [[Tile.Brick]] 1 1 [[true]] 5 5).1 (Or.inl (by decide))⟩,
   ⟨by decide, by decide,
    (terrain_at_contract [[Tile.Brick]] 1 1 [[true]] 0 0).2.1
      (by decide) (by decide) (by decide)⟩,
   ⟨by decide,
    (terrain_at_contract [[Tile.Brick]] 1 1 [[false]] 0 0).2.2
      (by decide) (by decide) (by decide)⟩⟩

/- ════════════════════════════════════════════════════════════════
   C2 — resolve_state priority list, sticky Dead/InHole
   ════════════════════════════════════════════════════════════════ -/

/-- C2: both `physics::resolve_state` (occupancy-aware) and
`rules::resolve_state` (tile-only) are a strict priority list with sticky
Dead/InHole: a Dead or InHole current state is returned unchanged
regardless of terrain; otherwise climbable wins (OnLadder), then hangable
(OnRope), then support (OnGround), else Falling. -/
theorem resolve_state_priority (tiles : List (List Tile)) (width height : Nat)
    (hole_grid : List (List Bool)) (guards : List Guard) (m : MapView)
    (x y u v : Nat) (current : ActorState) :
    ((current = ActorState.Dead ∨ current = ActorState.InHole) →
      physics.resolve_state tiles width height hole_grid guards x y current = current
      ∧ rules.resolve_state m u v current = current)
    ∧ (current ≠ ActorState.Dead → current ≠ ActorState.InHole →
      (let here := physics.terrain_at tiles width height hole_grid x y
       let r := physics.resolve_state tiles width height hole_grid guards x y current
       (here.climbable = true → r = ActorState.OnLadder)
       ∧ (here.climbable = false → here.hangable = true → r = ActorState.OnRope)
       ∧ (here.climbable = false → here.hangable = false →
          physics.has_support tiles width height hole_grid guards x y = true →
          r = ActorState.OnGround)
       ∧ (here.climbable = false → here.hangable = false →
          physics.has_support tiles width height hole_grid guards x y = false →
          r = ActorState.Falling))
      ∧ (let here := m.tile_at u v
         let r := rules.resolve_state m u v current
         (here.is_climbable = true → r = ActorState.OnLadder)
         ∧ (here.is_climbable = false → here.is_hangable = true → r = ActorState.OnRope)
         ∧ (here.is_climbable = false → here.is_hangable = false →
            m.has_support u v = true → r = ActorState.OnGround)
         ∧ (here.is_climbable = false → here.is_hangable = false →
            m.has_support u v = false → r = ActorState.Falling))) := by
  constructor
  · intro hcur
    unfold physics.resolve_state rules.resolve_state
    rw [if_pos hcur, if_pos hcur]
    exact ⟨rfl, rfl⟩
  · intro h1 h2
    have hcur : ¬(current = ActorState.Dead ∨ current = ActorState.InHole) := by
      tauto
    constructor
    · unfold physics.resolve_state
      rw [if_neg hcur]
      refine ⟨fun hc => ?_, fun hc hh => ?_, fun hc hh hs => ?_, fun hc hh hs => ?_⟩
      · simp only [hc, if_pos]
      · simp only [hc, hh]
        simp
      · simp only [hc, hh, hs]
        simp
      · simp only [hc, hh, hs]
        simp
    · unfold rules.resolve_state
      rw [if_neg hcur]
      refine ⟨fun hc => ?_, fun hc hh => ?_, fun hc hh hs => ?_, fun hc hh hs => ?_⟩
      · simp only [hc, if_pos]
      · simp only [hc, hh]
        simp
      · simp only [hc, hh, hs]
        simp
      · simp only [hc, hh, hs]
        simp

/-- Witness for C2 at concrete inputs: Dead stays Dead on a ladder cell,
and a Falling actor on a ladder cell resolves to OnLadder. -/
theorem resolve_state_priority_witness :
    ((ActorState.Dead = ActorState.Dead ∨ ActorState.Dead = ActorState.InHole) ∧
      physics.resolve_state [[Tile.Ladder]] 1 1 [[false]] [] 0 0 ActorState.Dead
        = ActorState.Dead
      ∧ rules.resolve_state ⟨[[Tile.Ladder]], 1, 1⟩ 0 0 ActorState.Dead
        = ActorState.Dead)
    ∧ (ActorState.Falling ≠ ActorState.Dead ∧
      physics.resolve_state [[Tile.Ladder]] 1 1 [[false]] [] 0 0 ActorState.Falling
        = ActorState.OnLadder) := by
  refine ⟨⟨Or.inl rfl, ?_⟩, ⟨by decide, ?_⟩⟩
  · exact (resolve_state_priority [[Tile.Ladder]] 1 1 [[false]] []
      ⟨[[Tile.Ladder]], 1, 1⟩ 0 0 0 0 ActorState.Dead).1 (Or.inl rfl)
  · exact ((resolve_state_priority [[Tile.Ladder]] 1 1 [[false]] []
      ⟨[[Tile.Ladder]], 1, 1⟩ 0 0 0 0 ActorState.Falling).2
      (by decide) (by decide)).1.1 (by decide)

/- ════════════════════════════════════════════════════════════════
   Tile-grid helper lemmas
   ════════════════════════════════════════════════════════════════ -/

theorem getTile_set_of_ne (t : List (List Tile)) (x0 y0 x y : Nat) (v : Tile)
    (hne : ¬(x = x0 ∧ y = y0)) :
    getTile (setTileGrid t x0 y0 v) x y = getTile t x y := by
  unfold getTile setTileGrid
  by_cases hy : y0 = y
  · subst hy
    have hx : x0 ≠ x := fun hx => hne ⟨hx.symm, rfl⟩
    by_cases hlen : y0 < t.length
    · rw [getD_set_self _ _ _ _ hlen, getD_set_ne _ _ _ _ _ hx]
    · rw [List.set_eq_of_length_le (le_of_not_lt hlen)]
  · rw [getD_set_ne _ _ _ _ _ hy]

theorem getTile_set_self (t : List (List Tile)) (x y : Nat) (v : Tile)
    (hy : y < t.length) (hx : x < (t.getD y []).length) :
    getTile (setTileGrid t x y v) x y = v := by
  unfold getTile setTileGrid
  rw [getD_set_self _ _ _ _ hy, getD_set_self _ _ _ _ hx]

theorem getTile_ne_empty_bounds (t : List (List Tile)) (x y : Nat)
    (h : getTile t x y ≠ Tile.Empty) :
    y < t.length ∧ x < (t.getD y []).length := by
  constructor
  · by_contra hy
    push_neg at hy
    unfold getTile at h
    rw [List.getD_eq_default t [] hy] at h
    exact h rfl
  · by_contra hx
    push_neg at hx
    unfold getTile at h
    rw [List.getD_eq_default _ _ hx] at h
    exact h rfl

/- ════════════════════════════════════════════════════════════════
   WorldState projection lemmas
   ════════════════════════════════════════════════════════════════ -/

@[simp] theorem set_tile_guards (w : WorldState) (x y : Nat) (t : Tile) :
    (w.set_tile x y t).guards = w.guards := by
  unfold WorldState.set_tile
  split <;> rfl

@[simp] theorem set_tile_width (w : WorldState) (x y : Nat) (t : Tile) :
    (w.set_tile x y t).width = w.width := by
  unfold WorldState.set_tile
  split <;> rfl

@[simp] theorem set_tile_height (w : WorldState) (x y : Nat) (t : Tile) :
    (w.set_tile x y t).height = w.height := by
  unfold WorldState.set_tile
  split <;> rfl

@[simp] theorem set_tile_score (w : WorldState) (x y : Nat) (t : Tile) :
    (w.set_tile x y t).score = w.score := by
  unfold WorldState.set_tile
  split <;> rfl

@[simp] theorem set_tile_gold_remaining (w : WorldState) (x y : Nat) (t : Tile) :
    (w.set_tile x y t).gold_remaining = w.gold_remaining := by
  unfold WorldState.set_tile
  split <;> rfl

@[simp] theorem set_tile_holes (w : WorldState) (x y : Nat) (t : Tile) :
    (w.set_tile x y t).holes = w.holes := by
  unfold WorldState.set_tile
  split <;> rfl

@[simp] theorem set_tile_hole_grid (w : WorldState) (x y : Nat) (t : Tile) :
    (w.set_tile x y t).hole_grid = w.hole_grid := by
  unfold WorldState.set_tile
  split <;> rfl

@[simp] theorem set_tile_player (w : WorldState) (x y : Nat) (t : Tile) :
    (w.set_tile x y t).player = w.player := by
  unfold WorldState.set_tile
  split <;> rfl

theorem set_tile_tiles_of_inbounds (w : WorldState) (x y : Nat) (t : Tile)
    (h : x < w.width ∧ y < w.height) :
    (w.set_tile x y t).tiles = setTileGrid w.tiles x y t := by
  unfold WorldState.set_tile
  rw [if_pos h]

@[simp] theorem clear_tile_guards (w : WorldState) (x y : Nat) :
    (w.clear_tile x y).guards = w.guards := by
  unfold WorldState.clear_tile
  split <;> rfl

@[simp] theorem clear_tile_width (w : WorldState) (x y : Nat) :
    (w.clear_tile x y).width = w.width := by
  unfold WorldState.clear_tile
  split <;> rfl

@[simp] theorem clear_tile_height (w : WorldState) (x y : Nat) :
    (w.clear_tile x y).height = w.height := by
  unfold WorldState.clear_tile
  split <;> rfl

@[simp] theorem clear_tile_holes (w : WorldState) (x y : Nat) :
    (w.clear_tile x y).holes = w.holes := by
  unfold WorldState.clear_tile
  split <;> rfl

@[simp] theorem clear_tile_hole_grid (w : WorldState) (x y : Nat) :
    (w.clear_tile x y).hole_grid = w.hole_grid := by
  unfold WorldState.clear_tile
  split <;> rfl

@[simp] theorem clear_tile_player (w : WorldState) (x y : Nat) :
    (w.clear_tile x y).player = w.player := by
  unfold WorldState.clear_tile
  split <;> rfl

@[simp] theorem player_die_guards (w : WorldState) :
    (step.player_die w).guards = w.guards := rfl

@[simp] theorem player_die_tiles (w : WorldState) :
    (step.player_die w).tiles = w.tiles := rfl

@[simp] theorem player_die_width (w : WorldState) :
    (step.player_die w).width = w.width := rfl

@[simp] theorem player_die_height (w : WorldState) :
    (step.player_die w).height = w.height := rfl

@[simp] theorem player_die_holes (w : WorldState) :
    (step.player_die w).holes = w.holes := rfl

@[simp] theorem player_die_hole_grid (w : WorldState) :
    (step.player_die w).hole_grid = w.hole_grid := rfl

/-- `terrain_at` only reads tiles and dimensions. -/
theorem terrain_at_congr (w1 w2 : WorldState) (ht : w1.tiles = w2.tiles)
    (hw : w1.width = w2.width) (hh : w1.height = w2.height) (x y : Nat) :
    w1.terrain_at x y = w2.terrain_at x y := by
  unfold WorldState.terrain_at
  rw [ht, hw, hh]

/-- `can_drop_gold_at` only reads tiles and dimensions. -/
theorem can_drop_gold_at_congr (w1 w2 : WorldState)
    (ht : w1.tiles = w2.tiles) (hw : w1.width = w2.width)
    (hh : w1.height = w2.height) (x y : Nat) :
    step.can_drop_gold_at w1 x y = step.can_drop_gold_at w2 x y := by
  unfold step.can_drop_gold_at
  rw [terrain_at_congr w1 w2 ht hw hh, terrain_at_congr w1 w2 ht hw hh, hw, hh]

theorem terrain_at_gold_bounds (w : WorldState) (x y : Nat)
    (h : w.terrain_at x y = Tile.Gold) : x < w.width ∧ y < w.height := by
  by_contra hc
  unfold WorldState.terrain_at at h
  rw [if_neg hc] at h
  cases h

/- ════════════════════════════════════════════════════════════════
   C8 — step is a no-op outside play
   ════════════════════════════════════════════════════════════════ -/

/-- C8: for every world whose phase is not Playing and every frame input,
`step` returns the empty event list and the world completely unchanged. -/
theorem step_non_playing_noop (w : WorldState) (input : FrameInput)
    (h : w.phase ≠ Phase.Playing) :
    step.step w input = (w, []) := by
  unfold step.step
  rw [if_pos h]

/-- A small concrete world used by several witnesses: a 3×2 map, one gold
tile, a brick floor, one guard. -/
def demoWorld : WorldState :=
  { base_tiles := [[Tile.Empty, Tile.Gold, Tile.Empty],
      [Tile.Brick, Tile.Brick, Tile.Brick]],
    tiles := [[Tile.Empty, Tile.Gold, Tile.Empty],
      [Tile.Brick, Tile.Brick, Tile.Brick]],
    width := 3, height := 2,
    player := {
      x := 0, y := 0, facing := Facing.Right,
      state := ActorState.OnGround, alive := true, move_cooldown := 0 },
    guards := [{
      id := 0, x := 2, y := 0, facing := Facing.Left,
      state := ActorState.OnGround, carry_gold := false, carry_gold_timer := 0,
      stuck_timer := 0, move_cooldown := 0, spawn_x := 2, spawn_y := 0,
      respawn_timer := 0, separation_timer := 0 }],
    holes := [], digs := [], hole_grid := mkGrid 3 2 false,
    gold_remaining := 1, gold_total := 1, exit_enabled := false,
    speed := {
      tick_rate_ms := 75, player_move_rate := 2, guard_move_rate := 5,
      dig_duration := 5, hole_open_ticks := 100, hole_close_ticks := 20,
      trap_escape_ticks := 70, guard_respawn_ticks := 80,
      gold_carry_ticks := 150 },
    phase := Phase.Playing, score := 0, lives := 5, current_level := 0,
    tick := 0, message := "", message_timer := 0, player_spawn := (0, 0),
    exit_columns := [], hidden_ladder_positions := [], anim_tick := 0,
    anim_player_y := 0, paused := false }

/-- Witness for C8 at a concrete input: the demo world in the Title phase. -/
theorem step_non_playing_noop_witness :
    ({ demoWorld with phase := Phase.Title } : WorldState).phase ≠ Phase.Playing
    ∧ step.step { demoWorld with phase := Phase.Title } ⟨none, none⟩
      = ({ demoWorld with phase := Phase.Title }, []) :=
  ⟨by decide,
   step_non_playing_noop { demoWorld with phase := Phase.Title } ⟨none, none⟩
     (by decide)⟩

/- ════════════════════════════════════════════════════════════════
   C6 — guard gold pickup
   ════════════════════════════════════════════════════════════════ -/

/-- The demo world with its guard sitting Dead on the gold tile at (1,0);
the player stays at (0,0), off the gold. -/
def deadGoldWorld : WorldState :=
  { demoWorld with
    guards := [{
      id := 0, x := 1, y := 0, facing := Facing.Left,
      state := ActorState.Dead, carry_gold := false, carry_gold_timer := 0,
      stuck_timer := 0, move_cooldown := 0, spawn_x := 2, spawn_y := 0,
      respawn_timer := 0, separation_timer := 0 }] }

/-- The gold-pickup loop body skips a guard that is Dead, InHole,
carrying, or not standing on Gold. -/
theorem gold_pickup_guard_body_skip (w : WorldState) (j : Nat)
    (hskip : (w.guards.getD j default).state = ActorState.Dead
      ∨ (w.guards.getD j default).state = ActorState.InHole
      ∨ (w.guards.getD j default).carry_gold = true
      ∨ w.terrain_at (w.guards.getD j default).x (w.guards.getD j default).y
          ≠ Tile.Gold) :
    step.gold_pickup_guard_body w j = w := by
  unfold step.gold_pickup_guard_body
  dsimp only
  split_ifs with h1 h2 h3
  · rfl
  · rfl
  · rcases hskip with h | h | h | h
    · exact (h1 (Or.inl h)).elim
    · exact (h1 (Or.inr h)).elim
    · exact (h2 h).elim
    · exact (h h3).elim
  · rfl

/-- Counterexample to C6 as stated: a Dead guard standing on a Gold tile,
not carrying gold, does NOT pick the gold up in the gold-pickup stage —
the tile stays Gold and the carry flag stays false, contradicting the
claim's "for any guard, regardless of its state". -/
theorem gold_pickup_dead_guard_counterexample :
    ((deadGoldWorld.guards.getD 0 default).carry_gold = false
     ∧ (deadGoldWorld.guards.getD 0 default).x = 1
     ∧ (deadGoldWorld.guards.getD 0 default).y = 0
     ∧ (deadGoldWorld.guards.getD 0 default).state = ActorState.Dead
     ∧ deadGoldWorld.terrain_at 1 0 = Tile.Gold)
    ∧ (((step.resolve_gold_pickup deadGoldWorld []).1.guards.getD 0
          default).carry_gold = false
     ∧ (step.resolve_gold_pickup deadGoldWorld []).1.terrain_at 1 0
        = Tile.Gold) := by
  decide

/-- C6 (amended): in the guard half of the gold-pickup stage, each guard
that is not Dead, not InHole, not carrying gold, and stands on a Gold tile
picks it up — the tile becomes Empty, the carry flag is set, the carry
timer resets to 0 — and neither the score nor gold_remaining changes.  The
hypothesis on the other guards (each Dead, InHole, carrying, or not on
gold) isolates guard `i`'s pickup. -/
theorem resolve_gold_pickup_guards_spec (w : WorldState) (i : Nat)
    (hi : i < w.guards.length)
    (hnd : (w.guards.getD i default).state ≠ ActorState.Dead)
    (hnh : (w.guards.getD i default).state ≠ ActorState.InHole)
    (hnc : (w.guards.getD i default).carry_gold = false)
    (hgold : w.terrain_at (w.guards.getD i default).x
        (w.guards.getD i default).y = Tile.Gold)
    (hothers : ∀ j, j < w.guards.length → j ≠ i →
      ((w.guards.getD j default).state = ActorState.Dead
       ∨ (w.guards.getD j default).state = ActorState.InHole
       ∨ (w.guards.getD j default).carry_gold = true
       ∨ w.terrain_at (w.guards.getD j default).x
           (w.guards.getD j default).y ≠ Tile.Gold)) :
    ((step.resolve_gold_pickup_guards w).guards.getD i default).carry_gold = true
    ∧ ((step.resolve_gold_pickup_guards w).guards.getD i default).carry_gold_timer = 0
    ∧ (step.resolve_gold_pickup_guards w).terrain_at
        (w.guards.getD i default).x (w.guards.getD i default).y = Tile.Empty
    ∧ (step.resolve_gold_pickup_guards w).score = w.score
    ∧ (step.resolve_gold_pickup_guards w).gold_remaining = w.gold_remaining := by
  have hb := terrain_at_gold_bounds w _ _ hgold
  have hget : getTile w.tiles (w.guards.getD i default).x
      (w.guards.getD i default).y = Tile.Gold := by
    unfold WorldState.terrain_at at hgold
    rwa [if_pos hb] at hgold
  have hphys := getTile_ne_empty_bounds w.tiles _ _ (by rw [hget]; decide)
  -- the body at index i
  have hbody : step.gold_pickup_guard_body w i =
      { w.set_tile (w.guards.getD i default).x (w.guards.getD i default).y
          Tile.Empty with
        guards := w.guards.set i
          { w.guards.getD i default with
            carry_gold := true, carry_gold_timer := 0 } } := by
    unfold step.gold_pickup_guard_body
    dsimp only
    rw [if_neg (by tauto),
      if_neg (fun hcc => Bool.false_ne_true (hnc.symm.trans hcc)),
      if_pos hgold, set_tile_guards]
  -- the world after guard i picks up
  set wMid : WorldState :=
    { w.set_tile (w.guards.getD i default).x (w.guards.getD i default).y
        Tile.Empty with
      guards := w.guards.set i
        { w.guards.getD i default with
          carry_gold := true, carry_gold_timer := 0 } } with hwMid
  have hMidTiles : wMid.tiles = setTileGrid w.tiles
      (w.guards.getD i default).x (w.guards.getD i default).y Tile.Empty := by
    rw [hwMid]
    show (w.set_tile _ _ Tile.Empty).tiles = _
    exact set_tile_tiles_of_inbounds w _ _ Tile.Empty hb
  have hMidW : wMid.width = w.width := by
    rw [hwMid]
    show (w.set_tile _ _ Tile.Empty).width = _
    exact set_tile_width w _ _ Tile.Empty
  have hMidH : wMid.height = w.height := by
    rw [hwMid]
    show (w.set_tile _ _ Tile.Empty).height = _
    exact set_tile_height w _ _ Tile.Empty
  have hMidG : wMid.guards = w.guards.set i
      { w.guards.getD i default with
        carry_gold := true, carry_gold_timer := 0 } := rfl
  -- trailing indices are inert on wMid
  have htrail : ∀ j, j < w.guards.length → j ≠ i →
      step.gold_pickup_guard_body wMid j = wMid := by
    intro j hj hne
    apply gold_pickup_guard_body_skip
    have hgj : wMid.guards.getD j default = w.guards.getD j default := by
      rw [hMidG]
      exact getD_set_ne _ _ _ _ _ (fun h => hne h.symm)
    rcases hothers j hj hne with h | h | h | h
    · exact Or.inl (by rw [hgj]; exact h)
    · exact Or.inr (Or.inl (by rw [hgj]; exact h))
    · exact Or.inr (Or.inr (Or.inl (by rw [hgj]; exact h)))
    · refine Or.inr (Or.inr (Or.inr ?_))
      rw [hgj]
      intro hcon
      apply h
      unfold WorldState.terrain_at at hcon ⊢
      rw [hMidW, hMidH] at hcon
      by_cases hab : (w.guards.getD j default).x < w.width
          ∧ (w.guards.getD j default).y < w.height
      · rw [if_pos hab] at hcon ⊢
        rw [hMidTiles] at hcon
        by_cases heq : (w.guards.getD j default).x = (w.guards.getD i default).x
            ∧ (w.guards.getD j default).y = (w.guards.getD i default).y
        · obtain ⟨he1, he2⟩ := heq
          rw [he1, he2,
            getTile_set_self w.tiles _ _ Tile.Empty hphys.1 hphys.2] at hcon
          cases hcon
        · rw [getTile_set_of_ne _ _ _ _ _ _ heq] at hcon
          exact hcon
      · rw [if_neg hab] at hcon
        cases hcon
  -- assemble the fold
  have hsplit := foldl_range_split step.gold_pickup_guard_body
    w.guards.length i hi w
  have hlead : (List.range i).foldl step.gold_pickup_guard_body w = w := by
    apply foldl_skip
    intro j hj
    have hji : j < i := List.mem_range.mp hj
    exact gold_pickup_guard_body_skip w j
      (hothers j (by omega) (by omega))
  have hfold : step.resolve_gold_pickup_guards w = wMid := by
    unfold step.resolve_gold_pickup_guards
    rw [hsplit, hlead, hbody]
    apply foldl_skip
    intro j hj
    have hjm := List.mem_range'_1.mp hj
    exact htrail j (by omega) (by omega)
  rw [hfold]
  refine ⟨?_, ?_, ?_, ?_, ?_⟩
  · rw [hMidG, getD_set_self _ _ _ _ (by simpa using hi)]
  · rw [hMidG, getD_set_self _ _ _ _ (by simpa using hi)]
  · unfold WorldState.terrain_at
    rw [hMidW, hMidH, if_pos hb, hMidTiles,
      getTile_set_self w.tiles _ _ Tile.Empty hphys.1 hphys.2]
  · rw [hwMid]
    show (w.set_tile _ _ Tile.Empty).score = w.score
    exact set_tile_score w _ _ Tile.Empty
  · rw [hwMid]
    show (w.set_tile _ _ Tile.Empty).gold_remaining = w.gold_remaining
    exact set_tile_gold_remaining w _ _ Tile.Empty

/-- Witness for C6 (amended) at a concrete input: the demo world's guard
moved onto the gold tile picks it up. -/
theorem resolve_gold_pickup_guards_spec_witness :
    (let w : WorldState := { demoWorld with
      guards := [{ (demoWorld.guards.getD 0 default) with x := 1, y := 0 }] }
     ((step.resolve_gold_pickup_guards w).guards.getD 0 default).carry_gold = true
     ∧ (step.resolve_gold_pickup_guards w).terrain_at 1 0 = Tile.Empty) := by
  have h := resolve_gold_pickup_guards_spec
    { demoWorld with
      guards := [{ (demoWorld.guards.getD 0 default) with x := 1, y := 0 }] }
    0 (by decide) (by decide) (by decide) (by decide) (by decide)
    (by intro j hj hne; simp at hj; omega)
  exact ⟨h.1, h.2.2.1⟩

/- ════════════════════════════════════════════════════════════════
   C7 — bounded BFS and greedy fallback
   ════════════════════════════════════════════════════════════════ -/

/-- Modelled from the claim's wording of the greedy fallback, vertical
half: a vertical step toward the player when standing on a climbable tile
and that cell is enterable, else (0,0). -/
def fallback_spec_ladder (c : ai.Ctx) (gx gy py : Nat) : Int × Int :=
  let sy : Int := if py > gy then 1 else if py < gy then -1 else 0
  if (c.terrain gx gy).climbable = true ∧ sy ≠ 0
      ∧ c.can_enter gx ((gy : Int) + sy).toNat = true then (0, sy)
  else (0, 0)

/-- Modelled from the claim's wording of the greedy fallback: a horizontal
step toward the player if that cell is enterable, else a vertical step
toward the player when standing on a climbable tile and that cell is
enterable, else (0,0). -/
def fallback_spec (c : ai.Ctx) (gx gy px py : Nat) : Int × Int :=
  let sx : Int := if px > gx then 1 else if px < gx then -1 else 0
  if sx ≠ 0 ∧ c.can_enter ((gx : Int) + sx).toNat gy = true then (sx, 0)
  else fallback_spec_ladder c gx gy py

theorem can_enter_bounds (c : ai.Ctx) (x y : Nat)
    (h : c.can_enter x y = true) : x < c.width ∧ y < c.height := by
  by_contra hc
  unfold ai.Ctx.can_enter ai.Ctx.terrain physics.terrain_at at h
  rw [if_pos (by omega)] at h
  exact Bool.false_ne_true h

theorem fallback_ladder_eq_spec (c : ai.Ctx) (gx gy py : Nat) :
    ai.fallback_ladder c gx gy py = fallback_spec_ladder c gx gy py := by
  unfold ai.fallback_ladder fallback_spec_ladder
  dsimp only
  by_cases hcl : (c.terrain gx gy).climbable = true
  · rw [if_pos hcl]
    rcases Nat.lt_trichotomy gy py with h2 | h2 | h2
    · have hsy : (if py > gy then (1 : Int) else if py < gy then -1 else 0) = 1 := by
        rw [if_pos h2]
      rw [hsy, if_pos (by decide)]
      have hey : ((gy : Int) + 1).toNat = gy + 1 := by omega
      rw [hey]
      by_cases hcey : c.can_enter gx (gy + 1) = true
      · have hlty := can_enter_bounds c _ _ hcey
        rw [if_pos ⟨hlty.2, hcey⟩, if_pos ⟨hcl, by decide, hcey⟩]
      · rw [if_neg (fun hco => hcey hco.2), if_neg (fun hco => hcey hco.2.2)]
    · subst h2
      have hsy : (if gy > gy then (1 : Int) else if gy < gy then -1 else 0) = 0 := by
        rw [if_neg (lt_irrefl gy), if_neg (lt_irrefl gy)]
      rw [hsy, if_neg (by decide), if_neg (fun hco => hco.2.1 rfl)]
    · have hsy : (if py > gy then (1 : Int) else if py < gy then -1 else 0) = -1 := by
        rw [if_neg (by omega), if_pos h2]
      rw [hsy, if_pos (by decide)]
      have hey : ((gy : Int) + (-1)).toNat = gy - 1 := by omega
      rw [hey]
      by_cases hcey : c.can_enter gx (gy - 1) = true
      · have hlty := can_enter_bounds c _ _ hcey
        rw [if_pos ⟨hlty.2, hcey⟩, if_pos ⟨hcl, by decide, hcey⟩]
      · rw [if_neg (fun hco => hcey hco.2), if_neg (fun hco => hcey hco.2.2)]
  · rw [if_neg hcl, if_neg (fun hco => hcl hco.1)]

theorem fallback_chase_eq_spec (c : ai.Ctx) (gx gy px py : Nat) :
    ai.fallback_chase c gx gy px py = fallback_spec c gx gy px py := by
  unfold ai.fallback_chase fallback_spec
  dsimp only
  rcases Nat.lt_trichotomy gx px with h1 | h1 | h1
  · have hsx : (if px > gx then (1 : Int) else if px < gx then -1 else 0) = 1 := by
      rw [if_pos h1]
    rw [hsx, if_pos (by decide)]
    have he : ((gx : Int) + 1).toNat = gx + 1 := by omega
    rw [he]
    by_cases hce : c.can_enter (gx + 1) gy = true
    · have hlt := can_enter_bounds c _ _ hce
      rw [if_pos ⟨hlt.1, hce⟩, if_pos ⟨by decide, hce⟩]
    · rw [if_neg (fun hco => hce hco.2), if_neg (fun hco => hce hco.2)]
      exact fallback_ladder_eq_spec c gx gy py
  · subst h1
    have hsx : (if gx > gx then (1 : Int) else if gx < gx then -1 else 0) = 0 := by
      rw [if_neg (lt_irrefl gx), if_neg (lt_irrefl gx)]
    rw [hsx, if_neg (by decide), if_neg (fun hco => hco.1 rfl)]
    exact fallback_ladder_eq_spec c gx gy py
  · have hsx : (if px > gx then (1 : Int) else if px < gx then -1 else 0) = -1 := by
      rw [if_neg (by omega), if_pos h1]
    rw [hsx, if_pos (by decide)]
    have he : ((gx : Int) + (-1)).toNat = gx - 1 := by omega
    rw [he]
    by_cases hce : c.can_enter (gx - 1) gy = true
    · have hlt := can_enter_bounds c _ _ hce
      rw [if_pos ⟨hlt.1, hce⟩, if_pos ⟨by decide, hce⟩]
    · rw [if_neg (fun hco => hce hco.2), if_neg (fun hco => hce hco.2)]
      exact fallback_ladder_eq_spec c gx gy py

theorem bfs_loop_count_le (c : ai.Ctx) (px py : Nat) :
    ∀ (b : Nat) (q : List (Nat × Nat × Int × Int)) (v : List (List Bool)),
      (ai.bfs_loop c px py b q v).2 ≤ b := by
  intro b
  induction b with
  | zero =>
    intro q v
    cases q with
    | nil => simp [ai.bfs_loop]
    | cons a t => simp [ai.bfs_loop]
  | succ n ih =>
    intro q v
    cases q with
    | nil => simp [ai.bfs_loop]
    | cons node rest =>
      obtain ⟨cx, cy, fdx, fdy⟩ := node
      unfold ai.bfs_loop
      dsimp only
      split_ifs with h1 h2 h3
      · simp
      · have := ih (rest ++ [(cx, cy + 1, fdx, fdy)]) (set2 v cx (cy + 1) true)
        simp
        omega
      · have := ih rest v
        simp
        omega
      · rcases hE : ai.expand_dirs c px py cx cy fdx fdy ai.DIRS v rest
          with ⟨od, v2, q2⟩
        cases od with
        | some d => simp
        | none =>
          have := ih q2 v2
          simp
          omega

/-- C7: guard-chase pathfinding is total and bounded.  First conjunct: the
BFS while-loop processes at most `budget` dequeued nodes, so the search
started with budget `BFS_MAX_DEPTH` processes at most 300 nodes beyond the
initial four-neighbor expansions.  Second conjunct: whenever the initial
pass and the budget-300 BFS both end without reaching the player,
`find_direction` returns the greedy fallback.  Third conjunct: that
fallback equals its claim-worded specification (horizontal step toward the
player if enterable, else climb toward the player on a climbable tile if
enterable, else (0,0)). -/
theorem find_direction_bounded_fallback (tiles : List (List Tile))
    (width height : Nat) (hole_grid : List (List Bool)) (guards : List Guard)
    (gx gy : Nat) (gstate : ActorState) (px py : Nat) :
    (∀ (b : Nat) (q : List (Nat × Nat × Int × Int)) (v : List (List Bool)),
      (ai.bfs_loop ⟨tiles, width, height, hole_grid, guards⟩ px py b q v).2 ≤ b
      ∧ (ai.bfs_loop ⟨tiles, width, height, hole_grid, guards⟩ px py
          ai.BFS_MAX_DEPTH q v).2 ≤ 300)
    ∧ (∀ (v : List (List Bool)) (q : List (Nat × Nat × Int × Int)),
      ¬(gstate = ActorState.InHole ∨ gstate = ActorState.Dead) →
      ¬(gx = px ∧ gy = py) →
      ai.init_pass ⟨tiles, width, height, hole_grid, guards⟩ gx gy px py ai.DIRS
        (set2 (mkGrid width height false) gx gy true) [] = (none, v, q) →
      (ai.bfs_loop ⟨tiles, width, height, hole_grid, guards⟩ px py
        ai.BFS_MAX_DEPTH q v).1 = none →
      ai.find_direction tiles width height hole_grid guards gx gy gstate px py
        = fallback_spec ⟨tiles, width, height, hole_grid, guards⟩ gx gy px py)
    ∧ ai.fallback_chase ⟨tiles, width, height, hole_grid, guards⟩ gx gy px py
      = fallback_spec ⟨tiles, width, height, hole_grid, guards⟩ gx gy px py := by
  refine ⟨fun b q v => ⟨bfs_loop_count_le _ px py b q v,
      bfs_loop_count_le _ px py ai.BFS_MAX_DEPTH q v⟩, ?_, ?_⟩
  · intro v q hterm hne hinit hbfs
    unfold ai.find_direction
    rw [if_neg hterm, if_neg hne]
    dsimp only
    rw [hinit]
    dsimp only
    rw [hbfs]
    exact fallback_chase_eq_spec _ gx gy px py
  · exact fallback_chase_eq_spec _ gx gy px py

/-- Witness for C7 at a concrete input: a 2×1 map whose second cell is
Concrete, guard at (0,0), player at (1,0): the search fails everywhere and
the fallback (blocked horizontally, no ladder) yields (0,0). -/
theorem find_direction_bounded_fallback_witness :
    (¬(ActorState.OnGround = ActorState.InHole
        ∨ ActorState.OnGround = ActorState.Dead)
     ∧ ¬((0 : Nat) = 1 ∧ (0 : Nat) = 0)
     ∧ ai.init_pass ⟨[[Tile.Empty, Tile.Concrete]], 2, 1, [[false, false]], []⟩
        0 0 1 0 ai.DIRS (set2 (mkGrid 2 1 false) 0 0 true) []
        = (none, [[true, false]], [])
     ∧ (ai.bfs_loop ⟨[[Tile.Empty, Tile.Concrete]], 2, 1, [[false, false]], []⟩
        1 0 ai.BFS_MAX_DEPTH [] [[true, false]]).1 = none)
    ∧ ai.find_direction [[Tile.Empty, Tile.Concrete]] 2 1 [[false, false]] []
        0 0 ActorState.OnGround 1 0
      = fallback_spec ⟨[[Tile.Empty, Tile.Concrete]], 2, 1, [[false, false]], []⟩
          0 0 1 0 := by
  refine ⟨⟨by decide, by decide, by decide, by decide⟩, ?_⟩
  exact (find_direction_bounded_fallback [[Tile.Empty, Tile.Concrete]] 2 1
    [[false, false]] [] 0 0 ActorState.OnGround 1 0).2.1
    [[true, false]] [] (by decide) (by decide) (by decide) (by decide)

/- ════════════════════════════════════════════════════════════════
   C9 — carried gold at hole seal
   ════════════════════════════════════════════════════════════════ -/

/-- The seal loop body skips every guard not at the sealed cell. -/
theorem seal_guard_body_skip (hx hy : Nat) (acc : WorldState × List GameEvent)
    (j : Nat)
    (h : ¬((acc.1.guards.getD j default).x = hx
        ∧ (acc.1.guards.getD j default).y = hy)) :
    step.seal_guard_body hx hy acc j = acc := by
  unfold step.seal_guard_body
  dsimp only
  rw [if_pos (by tauto)]

theorem can_drop_bounds (w : WorldState) (x y : Nat)
    (h : step.can_drop_gold_at w x y = true) :
    x < w.width ∧ y < w.height := by
  by_contra hc
  push_neg at hc
  unfold step.can_drop_gold_at at h
  rw [if_pos (by omega)] at h
  cases h

/-- C9: when a hole at (hx, hy) seals while an InHole guard carrying gold
occupies that cell (and no other guard is there), the guard becomes Dead
and its carry flag and carry timer are cleared unconditionally, but a Gold
tile is written at (hx, hy−1) only when hy > 0 and that cell — after the
brick is restored at (hx, hy) — is droppable (Empty with solid ground
beneath, or bottom row); in every other case the carried gold leaves the
world entirely, so gold is not conserved by step. -/
theorem seal_hole_carried_gold (w : WorldState) (hx hy i : Nat)
    (events : List GameEvent)
    (hi : i < w.guards.length)
    (hgx : (w.guards.getD i default).x = hx)
    (hgy : (w.guards.getD i default).y = hy)
    (hstate : (w.guards.getD i default).state = ActorState.InHole)
    (hcarry : (w.guards.getD i default).carry_gold = true)
    (honly : ∀ j, j < w.guards.length → j ≠ i →
      ¬((w.guards.getD j default).x = hx
        ∧ (w.guards.getD j default).y = hy)) :
    ((step.seal_hole w hx hy events).1.guards.getD i default).state
        = ActorState.Dead
    ∧ ((step.seal_hole w hx hy events).1.guards.getD i default).carry_gold
        = false
    ∧ ((step.seal_hole w hx hy events).1.guards.getD i default).carry_gold_timer
        = 0
    ∧ (step.seal_hole w hx hy events).1.tiles =
      (if hy > 0 ∧ step.can_drop_gold_at (w.clear_tile hx hy) hx (hy - 1)
       then setTileGrid (w.clear_tile hx hy).tiles hx (hy - 1) Tile.Gold
       else (w.clear_tile hx hy).tiles) := by
  have main : ∀ (wP : WorldState) (evP : List GameEvent),
      wP.guards = w.guards → wP.tiles = (w.clear_tile hx hy).tiles →
      wP.width = w.width → wP.height = w.height →
      (let r := (List.range wP.guards.length).foldl
        (step.seal_guard_body hx hy) (wP, evP)
       (r.1.guards.getD i default).state = ActorState.Dead
       ∧ (r.1.guards.getD i default).carry_gold = false
       ∧ (r.1.guards.getD i default).carry_gold_timer = 0
       ∧ r.1.tiles =
        (if hy > 0 ∧ step.can_drop_gold_at (w.clear_tile hx hy) hx (hy - 1)
         then setTileGrid (w.clear_tile hx hy).tiles hx (hy - 1) Tile.Gold
         else (w.clear_tile hx hy).tiles)) := by
    intro wP evP hG hT hW hH
    have hWc : (w.clear_tile hx hy).width = w.width := clear_tile_width w hx hy
    have hHc : (w.clear_tile hx hy).height = w.height := clear_tile_height w hx hy
    have hlen : wP.guards.length = w.guards.length := by
      rw [hG]
    have hiP : i < wP.guards.length := by
      rw [hG]
      exact hi
    -- the body at index i
    have hbody : step.seal_guard_body hx hy (wP, evP) i =
        (let g2 := { wP.guards.getD i default with
          state := ActorState.Dead, respawn_timer := 0 }
         let gd := { g2 with carry_gold := false, carry_gold_timer := 0 }
         let w3 : WorldState := { { wP with
            guards := wP.guards.set i g2, score := wP.score + 50 } with
            guards := ({ wP with
              guards := wP.guards.set i g2,
              score := wP.score + 50 } : WorldState).guards.set i gd }
         let ev3 := evP ++ [GameEvent.GuardKilled (wP.guards.getD i default).id hx hy]
         if hy > 0 ∧ step.can_drop_gold_at w3 hx (hy - 1) then
          (w3.set_tile hx (hy - 1) Tile.Gold, ev3)
         else (w3, ev3)) := by
      unfold step.seal_guard_body
      dsimp only
      rw [if_neg (by rw [hG, hgx, hgy]; simp),
        if_pos (by rw [hG]; exact hstate),
        if_pos (by rw [hG]; exact hcarry)]
    -- split the fold at index i
    have hlead : (List.range i).foldl (step.seal_guard_body hx hy) (wP, evP)
        = (wP, evP) := by
      apply foldl_skip
      intro j hj
      have hji : j < i := List.mem_range.mp hj
      apply seal_guard_body_skip
      show ¬((wP.guards.getD j default).x = hx
        ∧ (wP.guards.getD j default).y = hy)
      rw [hG]
      exact honly j (by omega) (by omega)
    rw [foldl_range_split (step.seal_guard_body hx hy) wP.guards.length i hiP
      (wP, evP), hlead, hbody]
    dsimp only
    have hdropEq : step.can_drop_gold_at { wP with
        guards := (wP.guards.set i
          { wP.guards.getD i default with
            state := ActorState.Dead, respawn_timer := 0 }).set i
          { wP.guards.getD i default with
            state := ActorState.Dead, respawn_timer := 0,
            carry_gold := false, carry_gold_timer := 0 },
        score := wP.score + 50 } hx (hy - 1)
        = step.can_drop_gold_at (w.clear_tile hx hy) hx (hy - 1) := by
      apply can_drop_gold_at_congr
      · exact hT
      · rw [hW, hWc]
      · rw [hH, hHc]
    rw [hdropEq, List.set_set]
    split_ifs with hdrop
    · -- gold dropped above the sealed brick
      obtain ⟨hhy, hcd⟩ := hdrop
      have hbnd := can_drop_bounds _ _ _ hcd
      rw [hWc] at hbnd
      rw [hHc] at hbnd
      have htrail : (List.range' (i + 1) (wP.guards.length - (i + 1))).foldl
          (step.seal_guard_body hx hy)
          (({ wP with
            guards := wP.guards.set i
              { wP.guards.getD i default with
                state := ActorState.Dead, respawn_timer := 0,
                carry_gold := false, carry_gold_timer := 0 },
            score := wP.score + 50 } : WorldState).set_tile hx (hy - 1) Tile.Gold,
           evP ++ [GameEvent.GuardKilled (wP.guards.getD i default).id hx hy])
          = (({ wP with
            guards := wP.guards.set i
              { wP.guards.getD i default with
                state := ActorState.Dead, respawn_timer := 0,
                carry_gold := false, carry_gold_timer := 0 },
            score := wP.score + 50 } : WorldState).set_tile hx (hy - 1) Tile.Gold,
           evP ++ [GameEvent.GuardKilled (wP.guards.getD i default).id hx hy]) := by
        apply foldl_skip
        intro j hj
        have hjm := List.mem_range'_1.mp hj
        apply seal_guard_body_skip
        rw [show (∀ z, (({ wP with
            guards := wP.guards.set i
              { wP.guards.getD i default with
                state := ActorState.Dead, respawn_timer := 0,
                carry_gold := false, carry_gold_timer := 0 },
            score := wP.score + 50 } : WorldState).set_tile hx (hy - 1)
              Tile.Gold).guards.getD j z = (wP.guards.set i
              { wP.guards.getD i default with
                state := ActorState.Dead, respawn_timer := 0,
                carry_gold := false, carry_gold_timer := 0 }).getD j z)
          from fun z => by rw [set_tile_guards],
          getD_set_ne _ _ _ _ _ (fun h => by omega), hG]
        exact honly j (by omega) (by omega)
      rw [htrail]
      refine ⟨?_, ?_, ?_, ?_⟩
      · rw [set_tile_guards, getD_set_self _ _ _ _ (by simpa using hiP)]
      · rw [set_tile_guards, getD_set_self _ _ _ _ (by simpa using hiP)]
      · rw [set_tile_guards, getD_set_self _ _ _ _ (by simpa using hiP)]
      · rw [set_tile_tiles_of_inbounds _ _ _ _ (by
          constructor
          · show hx < wP.width
            omega
          · show hy - 1 < wP.height
            omega)]
        rw [hT]
    · -- no drop: the carried gold vanishes
      have htrail : (List.range' (i + 1) (wP.guards.length - (i + 1))).foldl
          (step.seal_guard_body hx hy)
          (({ wP with
            guards := wP.guards.set i
              { wP.guards.getD i default with
                state := ActorState.Dead, respawn_timer := 0,
                carry_gold := false, carry_gold_timer := 0 },
            score := wP.score + 50 } : WorldState),
           evP ++ [GameEvent.GuardKilled (wP.guards.getD i default).id hx hy])
          = (({ wP with
            guards := wP.guards.set i
              { wP.guards.getD i default with
                state := ActorState.Dead, respawn_timer := 0,
                carry_gold := false, carry_gold_timer := 0 },
            score := wP.score + 50 } : WorldState),
           evP ++ [GameEvent.GuardKilled (wP.guards.getD i default).id hx hy]) := by
        apply foldl_skip
        intro j hj
        have hjm := List.mem_range'_1.mp hj
        apply seal_guard_body_skip
        show ¬(((wP.guards.set i
          { wP.guards.getD i default with
            state := ActorState.Dead, respawn_timer := 0,
            carry_gold := false, carry_gold_timer := 0 }).getD j default).x = hx
          ∧ ((wP.guards.set i
          { wP.guards.getD i default with
            state := ActorState.Dead, respawn_timer := 0,
            carry_gold := false, carry_gold_timer := 0 }).getD j default).y = hy)
        rw [getD_set_ne _ _ _ _ _ (fun h => by omega), hG]
        exact honly j (by omega) (by omega)
      rw [htrail]
      exact ⟨by rw [getD_set_self _ _ _ _ (by simpa using hiP)],
        by rw [getD_set_self _ _ _ _ (by simpa using hiP)],
        by rw [getD_set_self _ _ _ _ (by simpa using hiP)],
        hT⟩
  unfold step.seal_hole
  dsimp only
  by_cases hp : ((w.clear_tile hx hy).player.x = hx
      ∧ (w.clear_tile hx hy).player.y = hy
      ∧ (w.clear_tile hx hy).player.alive = true)
  · rw [if_pos hp]
    exact main (step.player_die (w.clear_tile hx hy)) _
      (by rw [player_die_guards, clear_tile_guards])
      (by rw [player_die_tiles])
      (by rw [player_die_width, clear_tile_width])
      (by rw [player_die_height, clear_tile_height])
  · rw [if_neg hp]
    exact main (w.clear_tile hx hy) _
      (clear_tile_guards w hx hy) rfl
      (clear_tile_width w hx hy) (clear_tile_height w hx hy)

/-- The demo world with a dug-open cell at (1,1) holding a trapped,
gold-carrying guard, and an empty cell above it. -/
def sealDemoWorld : WorldState :=
  { demoWorld with
    tiles := [[Tile.Empty, Tile.Empty, Tile.Empty],
      [Tile.Brick, Tile.Empty, Tile.Brick]],
    guards := [{
      id := 0, x := 1, y := 1, facing := Facing.Left,
      state := ActorState.InHole, carry_gold := true, carry_gold_timer := 3,
      stuck_timer := 5, move_cooldown := 0, spawn_x := 2, spawn_y := 0,
      respawn_timer := 0, separation_timer := 0 }] }

/-- Witness for C9 at a concrete input: sealing the hole at (1,1) kills
the trapped carrying guard, clears its gold, and (here the cell above is
droppable) writes the gold at (1,0). -/
theorem seal_hole_carried_gold_witness :
    ((sealDemoWorld.guards.getD 0 default).state = ActorState.InHole
     ∧ (sealDemoWorld.guards.getD 0 default).carry_gold = true)
    ∧ (((step.seal_hole sealDemoWorld 1 1 []).1.guards.getD 0 default).state
        = ActorState.Dead
      ∧ ((step.seal_hole sealDemoWorld 1 1 []).1.guards.getD 0 default).carry_gold
        = false
      ∧ ((step.seal_hole sealDemoWorld 1 1 []).1.guards.getD 0
          default).carry_gold_timer = 0
      ∧ (step.seal_hole sealDemoWorld 1 1 []).1.tiles =
        (if 1 > 0 ∧ step.can_drop_gold_at (sealDemoWorld.clear_tile 1 1) 1 (1 - 1)
         then setTileGrid (sealDemoWorld.clear_tile 1 1).tiles 1 (1 - 1) Tile.Gold
         else (sealDemoWorld.clear_tile 1 1).tiles)) := by
  refine ⟨⟨by decide, by decide⟩, ?_⟩
  exact seal_hole_carried_gold sealDemoWorld 1 1 0 [] (by decide) (by decide)
    (by decide) (by decide) (by decide)
    (by
      intro j hj hne
      have hlen1 : sealDemoWorld.guards.length = 1 := rfl
      omega)

/- ════════════════════════════════════════════════════════════════
   C10 — guard respawn ignores terrain
   ════════════════════════════════════════════════════════════════ -/

/-- The respawned form of a guard, as `resolve_timers` builds it. -/
def respawnedGuard (g : Guard) : Guard :=
  { g with
    x := g.spawn_x, y := 1, state := ActorState.OnGround, respawn_timer := 0,
    carry_gold := false, carry_gold_timer := 0, separation_timer := 0 }

/-- C10: when a Dead guard's respawn timer reaches the configured
threshold and no other non-Dead guard occupies (spawn_x, 1), the guard is
placed at (spawn_x, 1) with state OnGround, gold-carry and separation
cleared — for EVERY world, with no condition on the tile at (spawn_x, 1),
so a guard can respawn inside a solid Brick or Concrete cell. -/
theorem guard_respawn_ignores_terrain (w : WorldState) (i : Nat)
    (events : List GameEvent)
    (hi : i < w.guards.length)
    (hdead : (w.guards.getD i default).state = ActorState.Dead)
    (hthr : (w.guards.getD i default).respawn_timer + 1
      ≥ w.speed.guard_respawn_ticks)
    (hocc : ∀ j, j < w.guards.length → j ≠ i →
      ¬((w.guards.getD j default).state ≠ ActorState.Dead
        ∧ (w.guards.getD j default).x = (w.guards.getD i default).spawn_x
        ∧ (w.guards.getD j default).y = 1)) :
    step.guard_timer_body w i events =
      ({ w with guards := w.guards.set i (respawnedGuard (w.guards.getD i default)) },
       events ++ [GameEvent.GuardRespawned (w.guards.getD i default).id]) := by
  have hnih : ¬((w.guards.getD i default).state = ActorState.InHole) := by
    rw [hdead]
    exact fun hc => by cases hc
  have hstuck : step.guard_timer_stuck w i = w := by
    unfold step.guard_timer_stuck
    dsimp only
    rw [if_neg hnih]
  unfold step.guard_timer_body
  rw [hstuck]
  unfold step.guard_timer_respawn respawnedGuard
  dsimp only
  rw [if_pos hdead, if_pos hthr]
  have hAny : ((List.range (w.guards.set i
      { w.guards.getD i default with respawn_timer :=
        (w.guards.getD i default).respawn_timer + 1 }).length).any (fun j =>
      j != i && ((w.guards.set i
        { w.guards.getD i default with respawn_timer :=
          (w.guards.getD i default).respawn_timer + 1 }).getD j default).state
          != ActorState.Dead
      && ((w.guards.set i
        { w.guards.getD i default with respawn_timer :=
          (w.guards.getD i default).respawn_timer + 1 }).getD j default).x
          == (w.guards.getD i default).spawn_x
      && ((w.guards.set i
        { w.guards.getD i default with respawn_timer :=
          (w.guards.getD i default).respawn_timer + 1 }).getD j default).y
          == 1)) = false := by
    rw [List.any_eq_false]
    intro j hj
    rw [List.mem_range, List.length_set] at hj
    by_cases hji : j = i
    · subst hji
      simp
    · have hgj : ((w.guards.set i
          { w.guards.getD i default with respawn_timer :=
            (w.guards.getD i default).respawn_timer + 1 }).getD j default)
          = w.guards.getD j default :=
        getD_set_ne _ _ _ _ _ (fun h => hji h.symm)
      intro hf
      rw [hgj] at hf
      simp only [Bool.and_eq_true, bne_iff_ne, beq_iff_eq] at hf
      exact hocc j hj hji ⟨hf.1.1.2, hf.1.2, hf.2⟩
  have hOcc := fun hc => Bool.false_ne_true (hAny.symm.trans hc)
  rw [if_neg hOcc, List.set_set]

/-- Witness for C10 at a concrete input: the demo world's guard set Dead
with a full respawn timer, its spawn column resting over Brick — it
respawns at (2, 1) INSIDE the Brick tile there. -/
theorem guard_respawn_ignores_terrain_witness :
    (let w : WorldState := { demoWorld with
      guards := [{ (demoWorld.guards.getD 0 default) with
        state := ActorState.Dead, respawn_timer := 79 }] }
     w.terrain_at 2 1 = Tile.Brick
     ∧ step.guard_timer_body w 0 [] =
        ({ w with guards := w.guards.set 0 (respawnedGuard (w.guards.getD 0 default)) },
         [GameEvent.GuardRespawned 0])) := by
  refine ⟨by decide, ?_⟩
  have h := guard_respawn_ignores_terrain
    { demoWorld with
      guards := [{ (demoWorld.guards.getD 0 default) with
        state := ActorState.Dead, respawn_timer := 79 }] }
    0 [] (by decide) (by decide) (by decide)
    (by intro j hj hne; simp at hj; omega)
  exact h

/- ════════════════════════════════════════════════════════════════
   C5 — the hole-grid invariant is re-established by every tick
   ════════════════════════════════════════════════════════════════ -/

/-- The derived-grid invariant: on every in-bounds cell the boolean hole
grid agrees with "the hole list has an active hole here". -/
def gridMatches (w : WorldState) : Prop :=
  ∀ x, x < w.width → ∀ y, y < w.height →
    get2 w.hole_grid x y
      = w.holes.any fun h => h.x == x && h.y == y && h.is_active

/-- The world fields `gridMatches` depends on. -/
def holeFrame (w : WorldState) : List Hole × List (List Bool) × Nat × Nat :=
  (w.holes, w.hole_grid, w.width, w.height)

theorem gridMatches_of_holeFrame_eq (w1 w2 : WorldState)
    (h : holeFrame w1 = holeFrame w2) (hm : gridMatches w2) :
    gridMatches w1 := by
  simp only [holeFrame, Prod.mk.injEq] at h
  obtain ⟨hH, hG, hW, hHt⟩ := h
  intro x hx y hy
  rw [hG, hH]
  exact hm x (hW ▸ hx) y (hHt ▸ hy)

theorem build_fold_get2 (width height x y : Nat) (hx : x < width)
    (hy : y < height) :
    ∀ (holes : List Hole) (grid : List (List Bool)),
      grid.length = height →
      (∀ j, j < height → (grid.getD j []).length = width) →
      get2 (holes.foldl
        (fun grid h =>
          if h.x < width ∧ h.y < height ∧ h.is_active then set2 grid h.x h.y true
          else grid) grid) x y
      = ((holes.any fun h => h.x == x && h.y == y && h.is_active)
          || get2 grid x y) := by
  intro holes
  induction holes with
  | nil =>
    intro grid _ _
    simp
  | cons h t ih =>
    intro grid hlen hrow
    rw [List.foldl_cons, List.any_cons]
    by_cases hc : h.x < width ∧ h.y < height ∧ h.is_active = true
    · rw [if_pos hc,
        ih _ (by rw [set2_length]; exact hlen)
          (fun j hj => by rw [set2_row_length]; exact hrow j hj)]
      by_cases hxy : h.x = x ∧ h.y = y
      · have hset : get2 (set2 grid h.x h.y true) x y = true := by
          rcases hxy with ⟨hxx, hyy⟩
          subst hxx
          subst hyy
          exact get2_set2_self _ _ _ _ (by rw [hlen]; exact hc.2.1)
            (by rw [hrow _ hc.2.1]; exact hc.1)
        have hb : (h.x == x && h.y == y && h.is_active) = true := by
          simp [hxy.1, hxy.2, hc.2.2]
        rw [hset, hb]
        simp
      · have hb : (h.x == x && h.y == y && h.is_active) = false := by
          rcases not_and_or.mp hxy with hne | hne <;> simp [hne]
        rw [get2_set2_of_ne _ _ _ _ _ _ (fun hco => hxy ⟨hco.1.symm, hco.2.symm⟩),
          hb]
        simp
    · rw [if_neg hc, ih _ hlen hrow]
      have hb : (h.x == x && h.y == y && h.is_active) = false := by
        by_cases hxy : h.x = x ∧ h.y = y
        · have hna : h.is_active = false := by
            by_cases hv : h.is_active = true
            · exact absurd ⟨by rw [hxy.1]; exact hx, by rw [hxy.2]; exact hy, hv⟩ hc
            · exact eq_false_of_ne_true hv
          simp [hna]
        · rcases not_and_or.mp hxy with hne | hne <;> simp [hne]
      rw [hb]
      simp

theorem build_hole_grid_get2 (holes : List Hole) (width height x y : Nat)
    (hx : x < width) (hy : y < height) :
    get2 (physics.build_hole_grid holes width height) x y
      = holes.any fun h => h.x == x && h.y == y && h.is_active := by
  unfold physics.build_hole_grid
  rw [build_fold_get2 width height x y hx hy holes (mkGrid width height false)
    (mkGrid_length width height)
    (fun j hj => mkGrid_row_length width height j hj),
    get2_mkGrid]
  simp

theorem rebuild_gridMatches (w : WorldState) :
    gridMatches w.rebuild_hole_grid := by
  unfold gridMatches WorldState.rebuild_hole_grid
  dsimp only
  intro x hx y hy
  exact build_hole_grid_get2 w.holes w.width w.height x y hx hy

theorem tickHole_x (h : Hole) : (Hole.tickHole h).x = h.x := by
  unfold Hole.tickHole
  split_ifs <;> rfl

theorem tickHole_y (h : Hole) : (Hole.tickHole h).y = h.y := by
  unfold Hole.tickHole
  split_ifs <;> rfl

theorem is_active_of_tick_active (h : Hole)
    (ha : (Hole.tickHole h).is_active = true) : h.is_active = true := by
  unfold Hole.tickHole at ha
  by_cases h1 : h.open_remaining > 0
  · unfold Hole.is_active
    simp
    omega
  · by_cases h2 : h.close_remaining > 0
    · unfold Hole.is_active
      simp
      omega
    · rw [if_neg h1, if_neg h2] at ha
      exact ha

theorem any_congr_mem {α : Type _} (l : List α) (p q : α → Bool)
    (h : ∀ a ∈ l, p a = q a) : l.any p = l.any q := by
  induction l with
  | nil => rfl
  | cons a t ih =>
    rw [List.any_cons, List.any_cons, h a (by simp),
      ih fun b hb => h b (by simp [hb])]

theorem set_tile_holeFrame (w : WorldState) (x y : Nat) (t : Tile) :
    holeFrame (w.set_tile x y t) = holeFrame w := by
  unfold holeFrame WorldState.set_tile
  split <;> rfl

theorem clear_tile_holeFrame (w : WorldState) (x y : Nat) :
    holeFrame (w.clear_tile x y) = holeFrame w := by
  unfold holeFrame WorldState.clear_tile
  split <;> rfl

theorem player_die_holeFrame (w : WorldState) :
    holeFrame (step.player_die w) = holeFrame w := rfl

theorem set_message_holeFrame (w : WorldState) (m : String) (d : Nat) :
    holeFrame (w.set_message m d) = holeFrame w := rfl

theorem guard_enter_hole_holeFrame (w : WorldState) (idx hx : Nat)
    (dy : Option Nat) :
    holeFrame (step.guard_enter_hole w idx hx dy) = holeFrame w := by
  unfold step.guard_enter_hole
  cases dy with
  | none =>
    dsimp only
    split_ifs <;> rfl
  | some d =>
    dsimp only
    split_ifs <;> first | rfl | exact set_tile_holeFrame _ _ _ _

theorem resolve_player_movement_holeFrame (w : WorldState)
    (m : Option MoveDir) :
    holeFrame (step.resolve_player_movement w m) = holeFrame w := by
  unfold step.resolve_player_movement
  cases m with
  | none =>
    dsimp only
    split_ifs <;> rfl
  | some md =>
    dsimp only
    split_ifs <;> rfl

theorem resolve_guard_movement_holeFrame (w : WorldState) :
    holeFrame (step.resolve_guard_movement w) = holeFrame w := rfl

theorem resolve_trap_bricks_holeFrame (w : WorldState) (ev : List GameEvent) :
    holeFrame (step.resolve_trap_bricks w ev).1 = holeFrame w := by
  unfold step.resolve_trap_bricks
  dsimp only
  refine foldl_proj (fun acc => holeFrame acc.1) _ ?_ _ (w, ev)
  intro s p
  dsimp only
  split_ifs <;> first | rfl | exact set_tile_holeFrame _ _ _ _

theorem resolve_gravity_player_holeFrame (w : WorldState)
    (ev : List GameEvent) :
    holeFrame (step.resolve_gravity_player w ev).1 = holeFrame w := by
  unfold step.resolve_gravity_player
  dsimp only
  split_ifs <;> rfl

theorem resolve_gravity_guard_holeFrame (w : WorldState) (i : Nat) :
    holeFrame (step.resolve_gravity_guard w i) = holeFrame w := by
  unfold step.resolve_gravity_guard
  dsimp only
  split_ifs <;>
    first
    | rfl
    | exact guard_enter_hole_holeFrame _ _ _ _

theorem resolve_gravity_holeFrame (w : WorldState) (ev : List GameEvent) :
    holeFrame (step.resolve_gravity w ev).1 = holeFrame w := by
  unfold step.resolve_gravity
  dsimp only
  rw [foldl_proj holeFrame step.resolve_gravity_guard
    resolve_gravity_guard_holeFrame]
  exact resolve_gravity_player_holeFrame w ev

theorem resolve_hole_traps_holeFrame (w : WorldState) (ev : List GameEvent) :
    holeFrame (step.resolve_hole_traps w ev).1 = holeFrame w := by
  unfold step.resolve_hole_traps
  refine foldl_proj (fun acc => holeFrame acc.1) _ ?_ _ (w, ev)
  intro s i
  dsimp only
  split_ifs <;>
    first
    | rfl
    | exact guard_enter_hole_holeFrame _ _ _ _

theorem stamp_columns_holeFrame (w : WorldState) (cols : List Nat) :
    holeFrame (step.stamp_columns w cols).1 = holeFrame w := by
  unfold step.stamp_columns
  refine foldl_proj (fun acc => holeFrame acc.1) _ ?_ _ (w, false)
  intro s x
  dsimp only
  cases (List.range s.1.height).find?
      (fun y => (s.1.terrain_at x y).is_climbable) with
  | none => rfl
  | some ly =>
    refine foldl_proj (fun acc2 => holeFrame acc2.1) _ ?_ _ s
    intro s2 y
    dsimp only
    split_ifs <;> first | rfl | exact set_tile_holeFrame _ _ _ _

theorem enable_exit_holeFrame (w : WorldState) :
    holeFrame (step.enable_exit w) = holeFrame w := by
  unfold step.enable_exit
  dsimp only
  split_ifs <;>
    first
    | exact stamp_columns_holeFrame _ _
    | exact (stamp_columns_holeFrame _ _).trans (stamp_columns_holeFrame _ _)
    | (refine foldl_proj holeFrame _ ?_ _ _
       intro s p
       dsimp only
       split_ifs <;> first | rfl | exact set_tile_holeFrame _ _ _ _)

theorem resolve_gold_pickup_player_holeFrame (w : WorldState)
    (ev : List GameEvent) :
    holeFrame (step.resolve_gold_pickup_player w ev).1 = holeFrame w := by
  unfold step.resolve_gold_pickup_player
  dsimp only
  split_ifs with h1 h2
  · exact (set_message_holeFrame _ _ _).trans
      ((enable_exit_holeFrame _).trans (set_tile_holeFrame _ _ _ _))
  · exact set_tile_holeFrame _ _ _ _
  · rfl

theorem gold_pickup_guard_body_holeFrame (w : WorldState) (i : Nat) :
    holeFrame (step.gold_pickup_guard_body w i) = holeFrame w := by
  unfold step.gold_pickup_guard_body
  dsimp only
  split_ifs <;> first | rfl | exact set_tile_holeFrame _ _ _ _

theorem resolve_gold_pickup_guards_holeFrame (w : WorldState) :
    holeFrame (step.resolve_gold_pickup_guards w) = holeFrame w := by
  unfold step.resolve_gold_pickup_guards
  exact foldl_proj holeFrame step.gold_pickup_guard_body
    gold_pickup_guard_body_holeFrame _ w

theorem resolve_gold_pickup_holeFrame (w : WorldState) (ev : List GameEvent) :
    holeFrame (step.resolve_gold_pickup w ev).1 = holeFrame w := by
  unfold step.resolve_gold_pickup
  dsimp only
  exact (resolve_gold_pickup_guards_holeFrame _).trans
    (resolve_gold_pickup_player_holeFrame w ev)

theorem resolve_guard_gold_drop_holeFrame (w : WorldState)
    (ev : List GameEvent) :
    holeFrame (step.resolve_guard_gold_drop w ev).1 = holeFrame w := by
  unfold step.resolve_guard_gold_drop
  dsimp only
  split_ifs with h
  · rfl
  · refine foldl_proj (fun acc => holeFrame acc.1) _ ?_ _ (w, ev)
    intro s i
    dsimp only
    split_ifs <;> first | rfl | exact set_tile_holeFrame _ _ _ _

theorem resolve_enemy_collision_holeFrame (w : WorldState)
    (ev : List GameEvent) :
    holeFrame (step.resolve_enemy_collision w ev).1 = holeFrame w := by
  unfold step.resolve_enemy_collision
  dsimp only
  split_ifs <;> rfl

theorem try_escape_dir_holeFrame (w : WorldState) (i : Nat) (dx : Int)
    (w2 : WorldState) (h : step.try_escape_dir w i dx = some w2) :
    holeFrame w2 = holeFrame w := by
  unfold step.try_escape_dir at h
  dsimp only at h
  by_cases hc1 : (w.guards.getD i default).y = 0
  · rw [if_pos hc1] at h
    exact Option.noConfusion h
  · rw [if_neg hc1] at h
    by_cases hc2 : ((w.guards.getD i default).x : Int) + dx < 0
    · rw [if_pos hc2] at h
      exact Option.noConfusion h
    · rw [if_neg hc2] at h
      by_cases hc3 : (((w.guards.getD i default).x : Int) + dx).toNat ≥ w.width
      · rw [if_pos hc3] at h
        exact Option.noConfusion h
      · rw [if_neg hc3] at h
        by_cases hc4 : (!(physics.terrain_at w.tiles w.width w.height w.hole_grid
            (((w.guards.getD i default).x : Int) + dx).toNat
            ((w.guards.getD i default).y - 1)).passable) = true
        · rw [if_pos hc4] at h
          exact Option.noConfusion h
        · rw [if_neg hc4] at h
          by_cases hc5 : (!physics.has_support w.tiles w.width w.height w.hole_grid
              w.guards (((w.guards.getD i default).x : Int) + dx).toNat
              ((w.guards.getD i default).y - 1)) = true
          · rw [if_pos hc5] at h
            exact Option.noConfusion h
          · rw [if_neg hc5] at h
            by_cases hc6 : ((List.range w.guards.length).any fun j =>
                j != i && (w.guards.getD j default).state != ActorState.Dead
                && (w.guards.getD j default).x
                    == (((w.guards.getD i default).x : Int) + dx).toNat
                && (w.guards.getD j default).y
                    == (w.guards.getD i default).y - 1) = true
            · rw [if_pos hc6] at h
              exact Option.noConfusion h
            · rw [if_neg hc6] at h
              injection h with h2
              rw [← h2]
              split_ifs <;> first | rfl | exact set_tile_holeFrame _ _ _ _

theorem try_escape_holeFrame (w : WorldState) (i : Nat) :
    holeFrame (step.try_escape w i) = holeFrame w := by
  unfold step.try_escape
  dsimp only
  cases h1 : step.try_escape_dir w i
      (if w.player.x > (w.guards.getD i default).x then 1 else -1) with
  | some w2 => exact try_escape_dir_holeFrame _ _ _ _ h1
  | none =>
    cases h2 : step.try_escape_dir w i
        (-(if w.player.x > (w.guards.getD i default).x then 1 else -1)) with
    | some w2 => exact try_escape_dir_holeFrame _ _ _ _ h2
    | none => rfl

theorem guard_timer_stuck_holeFrame (w : WorldState) (i : Nat) :
    holeFrame (step.guard_timer_stuck w i) = holeFrame w := by
  unfold step.guard_timer_stuck
  dsimp only
  split_ifs <;> first | rfl | exact try_escape_holeFrame _ _

theorem guard_timer_respawn_holeFrame (w : WorldState) (i : Nat)
    (ev : List GameEvent) :
    holeFrame (step.guard_timer_respawn w i ev).1 = holeFrame w := by
  unfold step.guard_timer_respawn
  dsimp only
  split_ifs <;> rfl

theorem guard_timer_body_holeFrame (w : WorldState) (i : Nat)
    (ev : List GameEvent) :
    holeFrame (step.guard_timer_body w i ev).1 = holeFrame w := by
  unfold step.guard_timer_body
  exact (guard_timer_respawn_holeFrame _ _ _).trans
    (guard_timer_stuck_holeFrame _ _)

theorem resolve_win_holeFrame (w : WorldState) (ev : List GameEvent) :
    holeFrame (step.resolve_win w ev).1 = holeFrame w := by
  unfold step.resolve_win
  dsimp only
  split_ifs <;> rfl

theorem resolve_timers_gridMatches (w : WorldState) (ev : List GameEvent)
    (hm : gridMatches w) : gridMatches (step.resolve_timers w ev).1 := by
  unfold step.resolve_timers
  dsimp only
  generalize hwe : (List.range w.guards.length).foldl
    (fun acc i => step.guard_timer_body acc.1 i acc.2) (w, ev) = we
  generalize hticked : we.1.holes.map Hole.tickHole = ticked
  generalize hexpired : ticked.filter (fun h => !h.is_active) = expired
  generalize hkept : ticked.filter (fun h => h.is_active) = kept
  generalize hwe2 : expired.reverse.foldl
    (fun acc h => step.seal_hole acc.1 h.x h.y acc.2) we = we2
  by_cases hE : expired.isEmpty = true
  · rw [if_pos hE]
    have hfr : holeFrame we.1 = holeFrame w := by
      rw [← hwe]
      exact foldl_proj (fun acc => holeFrame acc.1)
        (fun acc i => step.guard_timer_body acc.1 i acc.2)
        (fun s i => guard_timer_body_holeFrame s.1 i s.2) _ (w, ev)
    simp only [holeFrame, Prod.mk.injEq] at hfr
    obtain ⟨hH, hG, hW, hHt⟩ := hfr
    have hexp_nil : expired = [] := by
      rcases expired with _ | ⟨a, t⟩
      · rfl
      · simp at hE
    subst hexp_nil
    simp only [List.reverse_nil, List.foldl_nil] at hwe2
    subst hwe2
    have hall : ∀ a ∈ ticked, a.is_active = true := by
      intro a ha
      by_contra hna
      have hmem : a ∈ ticked.filter (fun h => !h.is_active) :=
        List.mem_filter.mpr ⟨ha, by
          show (!a.is_active) = true
          cases hv : a.is_active with
          | false => rfl
          | true => exact absurd hv hna⟩
      rw [hexpired] at hmem
      simp at hmem
    have hkept_eq : kept = ticked := by
      rw [← hkept]
      exact List.filter_eq_self.mpr hall
    unfold gridMatches
    dsimp only
    intro x hx y hy
    have hpt : ∀ a ∈ w.holes,
        ((fun h => h.x == x && h.y == y && h.is_active) ∘ Hole.tickHole) a
          = (fun h => h.x == x && h.y == y && h.is_active) a := by
      intro a ha
      have hta : (Hole.tickHole a).is_active = true := by
        apply hall
        rw [← hticked, hH]
        exact List.mem_map_of_mem _ ha
      have haa : a.is_active = true := is_active_of_tick_active a hta
      show ((Hole.tickHole a).x == x && (Hole.tickHole a).y == y
          && (Hole.tickHole a).is_active) = (a.x == x && a.y == y && a.is_active)
      rw [tickHole_x, tickHole_y, hta, haa]
    rw [hG, hkept_eq, ← hticked, hH, List.any_map,
      any_congr_mem w.holes _ _ hpt]
    exact hm x (hW ▸ hx) y (hHt ▸ hy)
  · rw [if_neg hE]
    exact rebuild_gridMatches _

theorem gridMatches_player_movement (w : WorldState) (m : Option MoveDir)
    (hm : gridMatches w) : gridMatches (step.resolve_player_movement w m) :=
  gridMatches_of_holeFrame_eq _ _ (resolve_player_movement_holeFrame w m) hm

theorem gridMatches_guard_movement (w : WorldState)
    (hm : gridMatches w) : gridMatches (step.resolve_guard_movement w) :=
  gridMatches_of_holeFrame_eq _ _ (resolve_guard_movement_holeFrame w) hm

theorem gridMatches_trap_bricks (w : WorldState) (ev : List GameEvent)
    (hm : gridMatches w) : gridMatches (step.resolve_trap_bricks w ev).1 :=
  gridMatches_of_holeFrame_eq _ _ (resolve_trap_bricks_holeFrame w ev) hm

theorem gridMatches_gravity (w : WorldState) (ev : List GameEvent)
    (hm : gridMatches w) : gridMatches (step.resolve_gravity w ev).1 :=
  gridMatches_of_holeFrame_eq _ _ (resolve_gravity_holeFrame w ev) hm

theorem gridMatches_hole_traps (w : WorldState) (ev : List GameEvent)
    (hm : gridMatches w) : gridMatches (step.resolve_hole_traps w ev).1 :=
  gridMatches_of_holeFrame_eq _ _ (resolve_hole_traps_holeFrame w ev) hm

theorem gridMatches_gold_pickup (w : WorldState) (ev : List GameEvent)
    (hm : gridMatches w) : gridMatches (step.resolve_gold_pickup w ev).1 :=
  gridMatches_of_holeFrame_eq _ _ (resolve_gold_pickup_holeFrame w ev) hm

theorem gridMatches_gold_drop (w : WorldState) (ev : List GameEvent)
    (hm : gridMatches w) : gridMatches (step.resolve_guard_gold_drop w ev).1 :=
  gridMatches_of_holeFrame_eq _ _ (resolve_guard_gold_drop_holeFrame w ev) hm

theorem gridMatches_enemy_collision (w : WorldState) (ev : List GameEvent)
    (hm : gridMatches w) : gridMatches (step.resolve_enemy_collision w ev).1 :=
  gridMatches_of_holeFrame_eq _ _ (resolve_enemy_collision_holeFrame w ev) hm

theorem gridMatches_win (w : WorldState) (ev : List GameEvent)
    (hm : gridMatches w) : gridMatches (step.resolve_win w ev).1 :=
  gridMatches_of_holeFrame_eq _ _ (resolve_win_holeFrame w ev) hm

theorem gridMatches_ite {c : Prop} [Decidable c]
    (a b : WorldState × List GameEvent) (ha : gridMatches a.1)
    (hb : gridMatches b.1) : gridMatches (if c then a else b).1 := by
  by_cases h : c
  · rw [if_pos h]
    exact ha
  · rw [if_neg h]
    exact hb

/-- C5: the hole-grid invariant is re-established by every tick.  At the
end of every `step` on a world in the Playing phase, every in-bounds cell
of `hole_grid` is true exactly when the `holes` collection holds an active
hole at that cell: the pipeline rebuilds the derived grid after dig
completion adds holes, and at hole expiry either rebuilds it again
(something expired) or keeps a hole list that agrees on every cell with
the grid the mid-step rebuild recorded. -/
theorem step_hole_grid_invariant (w : WorldState) (input : FrameInput)
    (hp : w.phase = Phase.Playing) :
    gridMatches (step.step w input).1 := by
  unfold step.step
  rw [if_neg (by simp [hp])]
  dsimp only
  refine gridMatches_ite _ _ ?_ ?_
  · dsimp only
    apply gridMatches_enemy_collision
    apply gridMatches_gold_drop
    apply gridMatches_gold_pickup
    apply gridMatches_hole_traps
    apply gridMatches_gravity
    apply gridMatches_trap_bricks
    apply gridMatches_guard_movement
    apply gridMatches_player_movement
    exact rebuild_gridMatches _
  · apply gridMatches_win
    apply resolve_timers_gridMatches
    apply gridMatches_enemy_collision
    apply gridMatches_gold_drop
    apply gridMatches_gold_pickup
    apply gridMatches_hole_traps
    apply gridMatches_gravity
    apply gridMatches_trap_bricks
    apply gridMatches_guard_movement
    apply gridMatches_player_movement
    exact rebuild_gridMatches _

/-- A Playing-phase world whose stored hole grid is stale (all false even
though an active hole sits in the brick at (2, 1)): one tick restores the
invariant. -/
def c5World : WorldState :=
  { base_tiles := [[Tile.Empty, Tile.Empty, Tile.Empty],
      [Tile.Brick, Tile.Brick, Tile.Brick]],
    tiles := [[Tile.Empty, Tile.Empty, Tile.Empty],
      [Tile.Brick, Tile.Empty, Tile.Brick]],
    width := 3, height := 2,
    player := {
      x := 0, y := 0, facing := Facing.Right,
      state := ActorState.OnGround, alive := true, move_cooldown := 0 },
    guards := [],
    holes := [⟨1, 1, 5, 5⟩], digs := [], hole_grid := mkGrid 3 2 false,
    gold_remaining := 1, gold_total := 1, exit_enabled := false,
    speed := {
      tick_rate_ms := 75, player_move_rate := 2, guard_move_rate := 5,
      dig_duration := 5, hole_open_ticks := 100, hole_close_ticks := 20,
      trap_escape_ticks := 70, guard_respawn_ticks := 80,
      gold_carry_ticks := 150 },
    phase := Phase.Playing, score := 0, lives := 5, current_level := 0,
    tick := 0, message := "", message_timer := 0, player_spawn := (0, 0),
    exit_columns := [], hidden_ladder_positions := [], anim_tick := 0,
    anim_player_y := 0, paused := false }

/-- Witness for C5 at a concrete input: one idle tick of `c5World`. -/
theorem step_hole_grid_invariant_witness :
    c5World.phase = Phase.Playing
    ∧ gridMatches (step.step c5World ⟨none, none⟩).1 :=
  ⟨by decide, step_hole_grid_invariant c5World ⟨none, none⟩ (by decide)⟩

end NodeRunner
